import Mathlib

/-!
# MedicalChat (CrewAI/static/js/app.js): session store, persistence and backend exchange

A shallow embedding of the `MedicalChat` class.  The instance fields, the parts of the page the
class touches, the `localStorage` area and the list of `fetch` calls issued so far are gathered
in a record `World`; every method is a function on that record.

What the browser supplies is made explicit:

* every `Date.now()` / `new Date()` reading and the text of `Math.random().toString(36)` is an
  argument of the method that reads it;
* the outcome of `fetch` is an argument of the second half of `sendMessage`;
* the answer to `confirm(...)` is an argument of `clearChat`;
* string-to-number coercion, `Date.parse` and `Date.prototype.toISOString` are fields of `JsLib`,
  about which nothing is assumed unless a theorem says so;
* a text held in `localStorage` is represented by what `JSON.parse` makes of it (`StoredText`),
  and `JSON.stringify` produces such a representation directly.

Numbers are integers (`Int`): the time stamps, ids and ages the class computes with are integral
millisecond counts, on which JavaScript arithmetic is exact.

The page contains the elements the class looks up (`chatInput` and `chatMessages`, which are
dereferenced without a guard, and the guarded ones alike).  Writing a value into the page
converts it to a string, which throws a `TypeError` for an object that has an own `toString`
property (`toStringThrows`); `renderMessage` and the display of the session id in `loadSession`
can therefore throw.  Layout-only effects (`autoResizeTextarea`, `scrollToBottom`,
`console.error`) carry no state here.

`sendMessage` is an `async` method: `sendMessageStart` is the part that runs up to the `await`,
`sendMessageFinish` the part that runs when `fetch` has settled, and `sendMessage` composes the
two with no other handler run in between.  A throw is a result `.error w` that carries the state
`w` it leaves behind.
-/

namespace MedicalChat

/-! ## JavaScript values -/

/-- A value read back by `JSON.parse` / `response.json()`.  Objects list their own properties in
enumeration order, each key once. -/
inductive Json where
  | null
  | bool (b : Bool)
  | num (n : Int)
  | str (s : String)
  | arr (xs : List Json)
  | obj (ps : List (String × Json))

/-- A JavaScript value that is either `undefined` (`none`) or a JSON value. -/
abbrev JsValue := Option Json

/-- The time value of a `Date` object; `none` is the Invalid Date. -/
abbrev JsDate := Option Int

/-- Library functions of the JavaScript runtime that are taken as given. -/
structure JsLib where
  /-- `Number(s)` for a string `s`; `none` is `NaN`. -/
  stringToNumber : String → Option Int
  /-- `String(v)` for an array or object `v` (the result of `ToPrimitive`). -/
  objectToString : Json → String
  /-- `Date.parse(s)`; `none` is `NaN`. -/
  dateParse : String → Option Int
  /-- `new Date(t).toISOString()` for a valid time value `t`. -/
  toISOString : Int → String

/-- Reading `j.k` for a non-null JSON value `j` and one of the property names the class reads
(`timestamp`, `sessionId`, `messages`, `error`, `response`), none of which lives on a prototype:
the own property of an object, `undefined` for everything else. -/
def Json.get (j : Json) (k : String) : JsValue :=
  match j with
  | .obj ps => ps.lookup k
  | _ => none

/-- JavaScript truthiness (`ToBoolean`). -/
def truthy : JsValue → Bool
  | none => false
  | some .null => false
  | some (.bool b) => b
  | some (.num n) => n != 0
  | some (.str s) => s != ""
  | some (.arr _) => true
  | some (.obj _) => true

mutual
/-- Whether `String(j)` throws a `TypeError` (`ToString`, as run by a template literal and by
the setter of `textContent`).  An object parsed from JSON holds no function, so an own property
`toString` hides `Object.prototype.toString` with something that cannot be called, and
`Object.prototype.valueOf` gives back the object itself: the conversion throws exactly when the
object has an own `toString`.  An array is joined, which converts its elements. -/
def Json.toStringThrows : Json → Bool
  | .obj ps => (ps.lookup "toString").isSome
  | .arr xs => Json.anyToStringThrows xs
  | _ => false
/-- Whether the conversion of some element of an array throws. -/
def Json.anyToStringThrows : List Json → Bool
  | [] => false
  | x :: xs => x.toStringThrows || Json.anyToStringThrows xs
end

/-- Whether writing the value `v` into the page throws: `undefined` never does. -/
def toStringThrows : JsValue → Bool
  | none => false
  | some j => j.toStringThrows

/-- Strict equality `v === s` with a string `s`. -/
def strictEqualsString : JsValue → String → Bool
  | some (.str x), s => x == s
  | _, _ => false

/-- Numeric coercion (`ToNumber`); `none` is `NaN`. -/
def toNumber (lib : JsLib) : JsValue → Option Int
  | none => none
  | some .null => some 0
  | some (.bool b) => some (if b then 1 else 0)
  | some (.num n) => some n
  | some (.str s) => lib.stringToNumber s
  | some (.arr xs) => lib.stringToNumber (lib.objectToString (.arr xs))
  | some (.obj ps) => lib.stringToNumber (lib.objectToString (.obj ps))

/-- The range check `TimeClip` of the `Date` constructor. -/
def timeClip (t : Int) : JsDate :=
  if -8640000000000000 ≤ t ∧ t ≤ 8640000000000000 then some t else none

/-- The constructor call `new Date(v)` with one argument: strings (and what arrays and objects
convert to) are parsed, everything else is coerced to a number and range-checked. -/
def newDate (lib : JsLib) : JsValue → JsDate
  | some (.str s) => lib.dateParse s
  | some (.arr xs) => lib.dateParse (lib.objectToString (.arr xs))
  | some (.obj ps) => lib.dateParse (lib.objectToString (.obj ps))
  | v => (toNumber lib v).bind timeClip

/-- White space and line terminators, the code points `String.prototype.trim` strips. -/
def isJsWhiteSpace (c : Char) : Bool :=
  [0x9, 0xA, 0xB, 0xC, 0xD, 0x20, 0xA0, 0x1680, 0x2028, 0x2029, 0x202F, 0x205F, 0x3000,
    0xFEFF].contains c.toNat
    || (0x2000 ≤ c.toNat && c.toNat ≤ 0x200A)

/-- `String.prototype.trim`. -/
def jsTrim (s : String) : String :=
  String.mk (((s.data.dropWhile isJsWhiteSpace).reverse.dropWhile isJsWhiteSpace).reverse)

/-- `String.prototype.substr(start, length)` for non-negative arguments. -/
def substr (s : String) (start length : Nat) : String :=
  String.mk ((s.data.drop start).take length)

/-- Decimal digits of a natural number, most significant first (`fuel` bounds the digit count). -/
def natDigits : Nat → Nat → List Char
  | 0, _ => []
  | fuel + 1, n =>
    if n < 10 then [Char.ofNat (48 + n)]
    else natDigits fuel (n / 10) ++ [Char.ofNat (48 + n % 10)]

/-- `String(n)` for an integral number `n` (below `1e21` in size, where JavaScript prints plain
decimal digits). -/
def numberToString (n : Int) : String :=
  if n < 0 then String.mk ('-' :: natDigits 32 n.natAbs) else String.mk (natDigits 32 n.natAbs)

/-! ## Data model -/

/-- A message object held in `this.messages`: its own properties other than `timestamp`
(JSON values or `undefined`), and its `timestamp` property, which is always a `Date`. -/
structure Message where
  props : List (String × JsValue)
  timestamp : JsDate

/-- Reading a property other than `timestamp` (`msg.id`, `msg.content`, `msg.sender`). -/
def Message.get (m : Message) (k : String) : JsValue :=
  (m.props.lookup k).join

/-- The four properties of a message the class and the specification speak of. -/
def Message.view (m : Message) : JsValue × JsValue × JsValue × JsDate :=
  (m.get "id", m.get "content", m.get "sender", m.timestamp)

/-- The record `m` stands for a JavaScript object: no key occurs twice in `props`, and the key
`timestamp` is kept out of `props`. -/
def Message.WellFormed (m : Message) : Prop :=
  (m.props.map Prod.fst).Nodup ∧ "timestamp" ∉ m.props.map Prod.fst

/-- One element of `conversation_history`. -/
structure HistoryEntry where
  role : String
  content : JsValue
  timestamp : JsDate

/-- The object literal `requestData` of `sendToBackend`. -/
structure RequestData where
  message : String
  session_id : JsValue
  conversation_history : List HistoryEntry

/-- One call of `fetch`: the URL, the options and the body text (represented by its JSON). -/
structure FetchCall where
  url : String
  method : String
  contentType : String
  body : Json

/-- A text stored in `localStorage`, represented by what `JSON.parse` makes of it. -/
inductive StoredText where
  /-- A text `JSON.parse` rejects with a `SyntaxError` (the empty text included). -/
  | notJson (s : String)
  /-- A text that parses to the document `doc`. -/
  | json (doc : Json)

/-- Truthiness of the string `getItem` returned: only the empty text is falsy. -/
def StoredText.truthy : StoredText → Bool
  | .notJson s => s != ""
  | .json _ => true

/-- The `localStorage` area: its entries and whether it refuses further writes (quota). -/
structure Storage where
  items : List (String × StoredText)
  full : Bool

/-- The method `localStorage.getItem(key)`; `none` is `null`. -/
def Storage.getItem (st : Storage) (key : String) : Option StoredText :=
  st.items.lookup key

/-- The method `localStorage.setItem(key, value)`: overwrites, or throws when the area is full. -/
def Storage.setItem (st : Storage) (key : String) (value : StoredText) : Except Unit Storage :=
  if st.full then .error ()
  else .ok { st with items := (key, value) :: st.items.filter (fun p => p.1 != key) }

/-- The method `localStorage.removeItem(key)`. -/
def Storage.removeItem (st : Storage) (key : String) : Storage :=
  { st with items := st.items.filter (fun p => p.1 != key) }

/-- The parts of the page the class reads and writes. -/
structure Dom where
  /-- The property `chatInput.value`. -/
  inputValue : String
  /-- The property `chatInput.disabled`. -/
  inputDisabled : Bool
  /-- The property `sendBtn.disabled`. -/
  sendDisabled : Bool
  /-- Whether `sendBtn` shows the spinner icon (otherwise the paper plane). -/
  sendSpinner : Bool
  /-- Whether `typingIndicator` carries the class `show`. -/
  typingShown : Bool
  /-- Whether `chatMessages` contains the `.welcome-message` element. -/
  welcomeShown : Bool
  /-- The message elements appended to `chatMessages`, each given by the message it renders. -/
  rendered : List Message
  /-- The text set on `sessionIdElement`. -/
  sessionIdText : JsValue
  /-- The text set on `messageCountElement`. -/
  messageCountText : Nat

/-- The state the class acts on. -/
structure World where
  sessionId : JsValue
  messages : List Message
  isProcessing : Bool
  dom : Dom
  storage : Storage
  /-- The `fetch` calls issued so far, oldest first. -/
  requests : List FetchCall

/-- The clock readings of one `addMessage` call, in the order they are taken. -/
structure Ticks where
  /-- `Date.now()` for the message id. -/
  id : Int
  /-- `new Date()` for the message time stamp. -/
  stamp : Int
  /-- `Date.now()` inside `saveSession`. -/
  save : Int

/-! ## JSON.stringify -/

/-- A property of an object literal under `JSON.stringify`: dropped when its value is
`undefined`. -/
def optProp (k : String) (v : JsValue) : List (String × Json) :=
  match v with
  | some j => [(k, j)]
  | none => []

/-- A `Date` under `JSON.stringify` (`Date.prototype.toJSON`): the ISO string, or `null` for the
Invalid Date. -/
def dateToJson (lib : JsLib) : JsDate → Json
  | some t => .str (lib.toISOString t)
  | none => .null

/-- A message object under `JSON.stringify`; `timestamp` is written last, where the objects
built by `addMessage` have it. -/
def messageToJson (lib : JsLib) (m : Message) : Json :=
  .obj (m.props.flatMap (fun p => optProp p.1 p.2) ++ [("timestamp", dateToJson lib m.timestamp)])

/-- An element of `conversation_history` under `JSON.stringify`. -/
def historyEntryToJson (lib : JsLib) (h : HistoryEntry) : Json :=
  .obj ([("role", .str h.role)] ++ optProp "content" h.content
    ++ [("timestamp", dateToJson lib h.timestamp)])

/-- The text `JSON.stringify(requestData)`. -/
def requestDataToJson (lib : JsLib) (r : RequestData) : Json :=
  .obj ([("message", .str r.message)] ++ optProp "session_id" r.session_id
    ++ [("conversation_history", .arr (r.conversation_history.map (historyEntryToJson lib)))])

/-! ## The class `MedicalChat` -/

/-- The storage key used by `saveSession`, `loadSession` and `clearChat`. -/
def storageKey : String := "medicalChatSession"

/-- The literal `24 * 60 * 60 * 1000` of `loadSession`. -/
def oneDay : Int := 24 * 60 * 60 * 1000

/-- The fixed reply of the `catch` branch of `sendMessage`. -/
def fallbackMessage : String :=
  "I apologize, but I encountered an error processing your request. Please try again."

/-- The method `generateSessionId`; `now` is `Date.now()` and `rnd` is
`Math.random().toString(36)`. -/
def generateSessionId (now : Int) (rnd : String) : String :=
  "session_" ++ numberToString now ++ "_" ++ substr rnd 2 9

/-- The method `initializeElements`: shows the session id, which in the constructor, the only
caller, is the string just generated. -/
def initializeElements (w : World) : World :=
  { w with dom := { w.dom with sessionIdText := w.sessionId } }

/-- The method `bindEvents`: registers listeners only. -/
def bindEvents (w : World) : World := w

/-- The method `renderMessage`.  The element is built first: the class name converts
`message.sender`, the element id converts `message.id`, and `content.textContent` converts
`message.content`; any of the three can throw, and nothing on the page has changed by then.
After that the welcome element is removed and the message element appended. -/
def renderMessage (m : Message) (w : World) : Except Unit World :=
  if toStringThrows (m.get "sender") then .error ()
  else if toStringThrows (m.get "id") then .error ()
  else if toStringThrows (m.get "content") then .error ()
  else .ok { w with dom := { w.dom with welcomeShown := false, rendered := w.dom.rendered ++ [m] } }

/-- The method `showTypingIndicator`. -/
def showTypingIndicator (w : World) : World :=
  { w with dom := { w.dom with typingShown := true } }

/-- The method `hideTypingIndicator`. -/
def hideTypingIndicator (w : World) : World :=
  { w with dom := { w.dom with typingShown := false } }

/-- The method `setProcessingState`. -/
def setProcessingState (processing : Bool) (w : World) : World :=
  { w with
    isProcessing := processing
    dom := { w.dom with
      sendDisabled := processing, sendSpinner := processing, inputDisabled := processing } }

/-- The method `updateMessageCount`. -/
def updateMessageCount (w : World) : World :=
  { w with dom := { w.dom with messageCountText := w.messages.length } }

/-- The arrow function of `getConversationHistory`. -/
def historyEntry (msg : Message) : HistoryEntry :=
  { role := if strictEqualsString (msg.get "sender") "user" then "user" else "assistant"
    content := msg.get "content"
    timestamp := msg.timestamp }

/-- The method `getConversationHistory`. -/
def getConversationHistory (w : World) : List HistoryEntry :=
  w.messages.map historyEntry

/-- The object `sessionData` of `saveSession` under `JSON.stringify`. -/
def sessionDataToJson (lib : JsLib) (w : World) (now : Int) : Json :=
  .obj (optProp "sessionId" w.sessionId
    ++ [("messages", .arr (w.messages.map (messageToJson lib))), ("timestamp", .num now)])

/-- The method `saveSession`; `now` is its `Date.now()`.  A throwing `setItem` is caught. -/
def saveSession (lib : JsLib) (now : Int) (w : World) : World :=
  match w.storage.setItem storageKey (.json (sessionDataToJson lib w now)) with
  | .ok st => { w with storage := st }
  | .error _ => w

/-- The method `addMessage`.  The message is pushed first; a throw of `renderMessage` leaves
the method before `updateMessageCount` and `saveSession` run. -/
def addMessage (lib : JsLib) (t : Ticks) (content : JsValue) (sender : String) (w : World) :
    Except World World :=
  let message : Message :=
    { props := [("id", some (.num t.id)), ("content", content), ("sender", some (.str sender))]
      timestamp := some t.stamp }
  let w := { w with messages := w.messages ++ [message] }
  match renderMessage message w with
  | .error _ => .error w
  | .ok w =>
    let w := updateMessageCount w
    .ok (saveSession lib t.save w)

/-- The state `addMessage` returns with when `renderMessage` does not throw. -/
def addMessageOk (lib : JsLib) (t : Ticks) (content : JsValue) (sender : String) (w : World) :
    World :=
  saveSession lib t.save
    (updateMessageCount
      { w with
        messages := w.messages ++
          [ { props := [("id", some (.num t.id)), ("content", content),
                        ("sender", some (.str sender))]
              timestamp := some t.stamp } ]
        dom := { w.dom with
          welcomeShown := false
          rendered := w.dom.rendered ++
            [ { props := [("id", some (.num t.id)), ("content", content),
                          ("sender", some (.str sender))]
                timestamp := some t.stamp } ] } })

/-- The state `addMessage` leaves behind when `renderMessage` throws: the message is pushed and
nothing else has happened. -/
def addMessageThrown (t : Ticks) (content : JsValue) (sender : String) (w : World) : World :=
  { w with
    messages := w.messages ++
      [ { props := [("id", some (.num t.id)), ("content", content),
                    ("sender", some (.str sender))]
          timestamp := some t.stamp } ] }

/-- The own enumerable properties `...msg` copies from a JSON value. -/
def ownProps : Json → List (String × Json)
  | .obj ps => ps
  | .arr xs => xs.enum.map (fun p => (numberToString p.1, p.2))
  | .str s => s.data.enum.map (fun p => (numberToString p.1, .str (String.singleton p.2)))
  | _ => []

/-- The arrow function of `loadSession`, which spreads `msg` into a new object and overrides
`timestamp` with `new Date(msg.timestamp)`; reading `msg.timestamp` throws on `null`. -/
def reviveMessage (lib : JsLib) (msg : Json) : Except Unit Message :=
  match msg with
  | .null => .error ()
  | _ =>
    .ok { props := ((ownProps msg).filter (fun p => p.1 != "timestamp")).map
            (fun p => (p.1, some p.2))
          timestamp := newDate lib (msg.get "timestamp") }

/-- The call `sessionData.messages.map(...)`: a `TypeError` unless `messages` is an array. -/
def reviveMessages (lib : JsLib) : JsValue → Except Unit (List Message)
  | some (.arr xs) => xs.mapM (reviveMessage lib)
  | _ => .error ()

/-- The loop `this.messages.forEach(msg => this.renderMessage(msg))`: a throw ends it. -/
def renderAll : List Message → World → Except World World
  | [], w => .ok w
  | msg :: rest, w =>
    match renderMessage msg w with
    | .error _ => .error w
    | .ok w => renderAll rest w

/-- The `try` block of `loadSession`; `now` is its `Date.now()`.  `.error w` is a throw that
leaves the state `w` behind. -/
def loadSessionTry (lib : JsLib) (now : Int) (w : World) : Except World World :=
  match w.storage.getItem storageKey with
  | none => .ok w
  | some savedSession =>
    if savedSession.truthy then
      match savedSession with
      | .notJson _ => .error w
      | .json .null => .error w
      | .json sessionData =>
        match toNumber lib (sessionData.get "timestamp") with
        | none => .ok w
        | some timestamp =>
          let sessionAge := now - timestamp
          if sessionAge < oneDay then
            let w := { w with sessionId := sessionData.get "sessionId" }
            match reviveMessages lib (sessionData.get "messages") with
            | .error _ => .error w
            | .ok messages =>
              let w := { w with messages := messages }
              if toStringThrows w.sessionId then .error w
              else
                let w := { w with dom := { w.dom with sessionIdText := w.sessionId } }
                match renderAll w.messages w with
                | .error w => .error w
                | .ok w => .ok (updateMessageCount w)
          else .ok w
    else .ok w

/-- The method `loadSession`: the `catch` block only logs. -/
def loadSession (lib : JsLib) (now : Int) (w : World) : World :=
  match loadSessionTry lib now w with
  | .ok w => w
  | .error w => w

/-- The constructor, run on a page `page` with storage `storage`: `nowId` and `rnd` are read by
`generateSessionId`, `nowLoad` by `loadSession`. -/
def construct (lib : JsLib) (page : Dom) (storage : Storage) (nowId : Int) (rnd : String)
    (nowLoad : Int) : World :=
  let w : World :=
    { sessionId := some (.str (generateSessionId nowId rnd))
      messages := []
      isProcessing := false
      dom := page
      storage := storage
      requests := [] }
  loadSession lib nowLoad (bindEvents (initializeElements w))

/-- The method `clearChat`; `confirmed` is the answer to `confirm(...)`. -/
def clearChat (confirmed : Bool) (now : Int) (rnd : String) (w : World) : World :=
  if confirmed then
    let w := { w with messages := [] }
    let w := { w with sessionId := some (.str (generateSessionId now rnd)) }
    let w := { w with storage := w.storage.removeItem storageKey }
    let w := { w with dom := { w.dom with rendered := [], welcomeShown := true } }
    let w := { w with dom := { w.dom with sessionIdText := w.sessionId } }
    updateMessageCount w
  else w

/-- The user typing: `chatInput.value` becomes `text`. -/
def typeInput (text : String) (w : World) : World :=
  { w with dom := { w.dom with inputValue := text } }

/-- What `fetch` settles with: a rejection, or a response with its status and its body as
 `response.json()` reads it (`none`: the body is not JSON and `json()` rejects). -/
inductive FetchOutcome where
  | networkError
  | response (status : Nat) (body : Option Json)

/-- The getter `response.ok`: the status is in the range 200 to 299. -/
def responseOk (status : Nat) : Bool := 200 ≤ status && status ≤ 299

/-- The object `requestData` built by `sendToBackend`. -/
def requestData (w : World) (message : String) : RequestData :=
  { message := message
    session_id := w.sessionId
    conversation_history := getConversationHistory w }

/-- The first half of `sendToBackend`, up to the call of `fetch`. -/
def sendToBackendStart (lib : JsLib) (message : String) (w : World) : World :=
  { w with requests := w.requests ++
      [{ url := "/api/chat", method := "POST", contentType := "application/json"
         body := requestDataToJson lib (requestData w message) }] }

/-- The second half of `sendToBackend`, from the settling of `fetch`: the value returned, or
 `.error ()` for a throw. -/
def sendToBackendFinish : FetchOutcome → Except Unit JsValue
  | .networkError => .error ()
  | .response status body =>
    if !responseOk status then .error ()
    else
      match body with
      | none => .error ()
      | some .null => .error ()
      | some data =>
        if truthy (data.get "error") then .error ()
        else .ok (data.get "response")

/-- The first half of `sendMessage`, up to the `await`: the new state, and whether a request is
now pending (`false`: the guard returned at once, or `addMessage` threw). -/
def sendMessageStart (lib : JsLib) (t : Ticks) (w : World) : World × Bool :=
  let message := jsTrim w.dom.inputValue
  if message = "" ∨ w.isProcessing = true then (w, false)
  else
    match addMessage lib t (some (.str message)) "user" w with
    | .error w => (w, false)
    | .ok w =>
      let w := { w with dom := { w.dom with inputValue := "" } }
      let w := showTypingIndicator w
      let w := setProcessingState true w
      (sendToBackendStart lib message w, true)

/-- The `catch` block of `sendMessage`. -/
def sendMessageCatch (lib : JsLib) (t : Ticks) (w : World) : Except World World :=
  addMessage lib t (some (.str fallbackMessage)) "assistant" (hideTypingIndicator w)

/-- The second half of `sendMessage`, run when `fetch` has settled with `outcome`: the rest of
the `try` block, the `catch` block when `sendToBackend` or the `addMessage` of the `try` block
threw, and the `finally` block in every case.  The first `addMessage` to run reads the clock as
`t`; when that one is the call of the `try` block and it throws, the call of the `catch` block
reads the clock as `tc`. -/
def sendMessageFinish (lib : JsLib) (t tc : Ticks) (outcome : FetchOutcome) (w : World) :
    World :=
  let result : Except World World :=
    match sendToBackendFinish outcome with
    | .error _ => sendMessageCatch lib t w
    | .ok response =>
      match addMessage lib t response "assistant" (hideTypingIndicator w) with
      | .ok w => .ok w
      | .error w => sendMessageCatch lib tc w
  match result with
  | .ok w => setProcessingState false w
  | .error w => setProcessingState false w

/-- The method `sendMessage` run to completion with no other handler in between: `t1` are the
clock readings of the first `addMessage`, `t2` those of the second, and `tc` those of a third,
which runs when the second threw inside the `try` block. -/
def sendMessage (lib : JsLib) (t1 t2 tc : Ticks) (outcome : FetchOutcome) (w : World) : World :=
  match sendMessageStart lib t1 w with
  | (w, false) => w
  | (w, true) => sendMessageFinish lib t2 tc outcome w

/-- The number a list of decimal digits writes. -/
def digitsValue (cs : List Char) : Nat :=
  cs.foldl (fun acc c => 10 * acc + (c.toNat - 48)) 0

/-! ## Example data -/

/-- The values of the runtime functions at the points the examples below use. -/
def exampleLib : JsLib where
  stringToNumber := fun _ => none
  objectToString := fun _ => "[object Object]"
  dateParse := fun s =>
    if s = "2024-01-15T10:30:00.000Z" then some 1705314600000
    else if s = "2024-01-15T10:30:02.000Z" then some 1705314602000
    else none
  toISOString := fun t =>
    if t = 1705314600000 then "2024-01-15T10:30:00.000Z"
    else if t = 1705314602000 then "2024-01-15T10:30:02.000Z"
    else ""

/-- A page as first served: empty input, welcome element shown, nothing rendered. -/
def examplePage : Dom where
  inputValue := ""
  inputDisabled := false
  sendDisabled := false
  sendSpinner := false
  typingShown := false
  welcomeShown := true
  rendered := []
  sessionIdText := none
  messageCountText := 0

/-- An idle chat without messages in which the user has typed `text`. -/
def exampleWorld (text : String) : World where
  sessionId := some (.str "session_1705314000000_k3j9x0q1z")
  messages := []
  isProcessing := false
  dom := { examplePage with inputValue := text }
  storage := { items := [], full := false }
  requests := []

/-- Clock readings of the user message of the examples. -/
def exampleTicks1 : Ticks := { id := 1705314600000, stamp := 1705314600000, save := 1705314600001 }

/-- Clock readings of the assistant message of the examples. -/
def exampleTicks2 : Ticks := { id := 1705314602000, stamp := 1705314602000, save := 1705314602001 }

/-- Clock readings of a third message of the examples. -/
def exampleTicks3 : Ticks := { id := 1705314602002, stamp := 1705314602002, save := 1705314602003 }

/-- A persisted session holding one exchange, saved at 1705314602001. -/
def exampleStoredDoc : Json :=
  .obj
    [ ("sessionId", .str "session_1705314000000_k3j9x0q1z"),
      ("messages", .arr
        [ .obj [ ("id", .num 1705314600000), ("content", .str "I have a headache"),
                 ("sender", .str "user"), ("timestamp", .str "2024-01-15T10:30:00.000Z") ],
          .obj [ ("id", .num 1705314602000), ("content", .str "Please describe the duration."),
                 ("sender", .str "assistant"),
                 ("timestamp", .str "2024-01-15T10:30:02.000Z") ] ]),
      ("timestamp", .num 1705314602001) ]

/-- A store holding `exampleStoredDoc` under the key of the class. -/
def exampleStaleStorage : Storage :=
  { items := [("medicalChatSession", .json exampleStoredDoc)], full := false }

/-- A store whose entry is a text cut off in the middle, which `JSON.parse` rejects. -/
def exampleTruncatedStorage : Storage :=
  { items := [("medicalChatSession", .notJson "\x7b\"sessionId\":\"session_17")],
    full := false }

/-- A persisted document that has no `timestamp`. -/
def exampleUndatedDoc : Json :=
  .obj [ ("sessionId", .str "session_1705314000000_k3j9x0q1z"), ("messages", .arr []) ]

/-- A store holding `exampleUndatedDoc` under the key of the class. -/
def exampleUndatedStorage : Storage :=
  { items := [("medicalChatSession", .json exampleUndatedDoc)], full := false }

/-- A chat whose first request is pending, in which the user has typed a second question. -/
def examplePending : World :=
  typeInput "second question"
    (sendMessageStart exampleLib exampleTicks1 (exampleWorld "I have a headache")).1

/-- A chat whose first request is pending: it holds the user message, saved. -/
def exampleAsked : World :=
  (sendMessageStart exampleLib exampleTicks1 (exampleWorld "I have a headache")).1

/-- A fresh persisted session whose one message has a time stamp `Date.parse` rejects. -/
def exampleGarbledStorage : Storage :=
  { items := [("medicalChatSession", .json (.obj
      [ ("sessionId", .str "session_1705314000000_k3j9x0q1z"),
        ("messages", .arr
          [ .obj [ ("id", .num 1705314600000), ("content", .str "I have a headache"),
                   ("sender", .str "user"), ("timestamp", .str "garbage") ] ]),
        ("timestamp", .num 1705314602001) ]))],
    full := false }

/-- The chat the constructor builds from `exampleGarbledStorage`: its message has an Invalid
Date. -/
def exampleGarbledChat : World :=
  construct exampleLib examplePage exampleGarbledStorage 1705314700000 "0.z9y8x7w6v5u"
    1705314700001

/-- A chat after one exchange, as `sendMessage` leaves it. -/
def exampleChat : World :=
  sendMessage exampleLib exampleTicks1 exampleTicks2 exampleTicks3
    (.response 200 (some (.obj [("response", .str "Please describe the duration.")])))
    (exampleWorld "I have a headache")

/-! ## Frame lemmas -/

@[simp]
theorem saveSession_messages (lib : JsLib) (now : Int) (w : World) :
    (saveSession lib now w).messages = w.messages := by
  unfold saveSession; split <;> rfl

@[simp]
theorem saveSession_sessionId (lib : JsLib) (now : Int) (w : World) :
    (saveSession lib now w).sessionId = w.sessionId := by
  unfold saveSession; split <;> rfl

@[simp]
theorem saveSession_isProcessing (lib : JsLib) (now : Int) (w : World) :
    (saveSession lib now w).isProcessing = w.isProcessing := by
  unfold saveSession; split <;> rfl

@[simp]
theorem saveSession_requests (lib : JsLib) (now : Int) (w : World) :
    (saveSession lib now w).requests = w.requests := by
  unfold saveSession; split <;> rfl

@[simp]
theorem saveSession_dom (lib : JsLib) (now : Int) (w : World) :
    (saveSession lib now w).dom = w.dom := by
  unfold saveSession; split <;> rfl

@[simp]
theorem addMessageOk_messages (lib : JsLib) (t : Ticks) (content : JsValue)
    (sender : String) (w : World) :
    (addMessageOk lib t content sender w).messages = w.messages ++
      [{ props := [("id", some (.num t.id)), ("content", content), ("sender", some (.str sender))]
         timestamp := some t.stamp }] := by
  simp [addMessageOk, updateMessageCount]

@[simp]
theorem addMessageOk_sessionId (lib : JsLib) (t : Ticks) (content : JsValue)
    (sender : String) (w : World) :
    (addMessageOk lib t content sender w).sessionId = w.sessionId := by
  simp [addMessageOk, updateMessageCount]

@[simp]
theorem addMessageOk_isProcessing (lib : JsLib) (t : Ticks) (content : JsValue)
    (sender : String) (w : World) :
    (addMessageOk lib t content sender w).isProcessing = w.isProcessing := by
  simp [addMessageOk, updateMessageCount]

@[simp]
theorem addMessageOk_requests (lib : JsLib) (t : Ticks) (content : JsValue)
    (sender : String) (w : World) :
    (addMessageOk lib t content sender w).requests = w.requests := by
  simp [addMessageOk, updateMessageCount]

/-- The only conversion that can throw while `addMessage` renders is that of the content: the
sender is a string and the id a number. -/
theorem renderMessage_new (t : Ticks) (content : JsValue) (sender : String) (w : World) :
    renderMessage
        { props := [("id", some (.num t.id)), ("content", content),
                    ("sender", some (.str sender))]
          timestamp := some t.stamp } w
      = if toStringThrows content then .error ()
        else .ok { w with dom := { w.dom with
          welcomeShown := false
          rendered := w.dom.rendered ++
            [ { props := [("id", some (.num t.id)), ("content", content),
                          ("sender", some (.str sender))]
                timestamp := some t.stamp } ] } } := by
  have h1 : Message.get
      { props := [("id", some (.num t.id)), ("content", content),
                  ("sender", some (.str sender))]
        timestamp := some t.stamp } "sender" = some (.str sender) := rfl
  have h2 : Message.get
      { props := [("id", some (.num t.id)), ("content", content),
                  ("sender", some (.str sender))]
        timestamp := some t.stamp } "id" = some (.num t.id) := rfl
  have h3 : Message.get
      { props := [("id", some (.num t.id)), ("content", content),
                  ("sender", some (.str sender))]
        timestamp := some t.stamp } "content" = content := by
    cases content <;> rfl
  unfold renderMessage
  rw [h1, h2, h3]
  rfl

theorem addMessage_of_renders (lib : JsLib) (t : Ticks) (content : JsValue) (sender : String)
    (w : World) (h : toStringThrows content = false) :
    addMessage lib t content sender w = .ok (addMessageOk lib t content sender w) := by
  unfold addMessage
  simp only [renderMessage_new, h]
  rfl

theorem addMessage_of_throws (lib : JsLib) (t : Ticks) (content : JsValue) (sender : String)
    (w : World) (h : toStringThrows content = true) :
    addMessage lib t content sender w = .error (addMessageThrown t content sender w) := by
  unfold addMessage
  simp only [renderMessage_new, h]
  rfl

/-- Messages built by `addMessage` are proper objects with a valid time stamp, so the
well-formedness assumed of the message list by the round-trip theorem is kept by every
append. -/
theorem addMessageOk_wellFormed (lib : JsLib) (t : Ticks) (content : JsValue) (sender : String)
    (w : World) (h : ∀ m ∈ w.messages, m.WellFormed ∧ m.timestamp ≠ none) :
    ∀ m ∈ (addMessageOk lib t content sender w).messages,
      m.WellFormed ∧ m.timestamp ≠ none := by
  intro m hm
  rw [addMessageOk_messages] at hm
  rcases List.mem_append.mp hm with h1 | h1
  · exact h m h1
  · simp only [List.mem_singleton] at h1
    subst h1
    refine ⟨⟨?_, ?_⟩, by simp⟩
    · show (["id", "content", "sender"] : List String).Nodup
      decide
    · show "timestamp" ∉ (["id", "content", "sender"] : List String)
      decide

theorem sendMessageStart_accept (lib : JsLib) (t : Ticks) (w : World)
    (hidle : w.isProcessing = false) (hne : jsTrim w.dom.inputValue ≠ "") :
    sendMessageStart lib t w =
      (sendToBackendStart lib (jsTrim w.dom.inputValue)
        (setProcessingState true (showTypingIndicator
          { addMessageOk lib t (some (.str (jsTrim w.dom.inputValue))) "user" w with
            dom := { (addMessageOk lib t (some (.str (jsTrim w.dom.inputValue))) "user" w).dom
              with inputValue := "" } })), true) := by
  unfold sendMessageStart
  simp only [hidle, hne, addMessage_of_renders lib t (some (.str (jsTrim w.dom.inputValue)))
    "user" w rfl]
  simp

theorem sendMessageStart_drop (lib : JsLib) (t : Ticks) (w : World)
    (h : w.isProcessing = true ∨ jsTrim w.dom.inputValue = "") :
    sendMessageStart lib t w = (w, false) := by
  unfold sendMessageStart
  rcases h with h | h <;> simp [h]

/-- The second half of `sendMessage` when `sendToBackend` threw: the apology is appended. -/
theorem sendMessageFinish_of_failure (lib : JsLib) (t tc : Ticks) (outcome : FetchOutcome)
    (w : World) (h : sendToBackendFinish outcome = .error ()) :
    sendMessageFinish lib t tc outcome w = setProcessingState false
      (addMessageOk lib t (some (.str fallbackMessage)) "assistant" (hideTypingIndicator w)) := by
  unfold sendMessageFinish sendMessageCatch
  simp only [h, addMessage_of_renders lib t (some (.str fallbackMessage)) "assistant" _ rfl]

/-- The second half of `sendMessage` when `sendToBackend` returned a value the page renders. -/
theorem sendMessageFinish_of_success (lib : JsLib) (t tc : Ticks) (outcome : FetchOutcome)
    (w : World) (response : JsValue) (h : sendToBackendFinish outcome = .ok response)
    (hr : toStringThrows response = false) :
    sendMessageFinish lib t tc outcome w = setProcessingState false
      (addMessageOk lib t response "assistant" (hideTypingIndicator w)) := by
  unfold sendMessageFinish
  simp only [h, addMessage_of_renders lib t response "assistant" _ hr]

/-- The second half of `sendMessage` when `sendToBackend` returned a value whose rendering
throws: the message is pushed, the throw lands in the `catch` block, and the apology follows. -/
theorem sendMessageFinish_of_render_throw (lib : JsLib) (t tc : Ticks) (outcome : FetchOutcome)
    (w : World) (response : JsValue) (h : sendToBackendFinish outcome = .ok response)
    (hr : toStringThrows response = true) :
    sendMessageFinish lib t tc outcome w = setProcessingState false
      (addMessageOk lib tc (some (.str fallbackMessage)) "assistant"
        (hideTypingIndicator
          (addMessageThrown t response "assistant" (hideTypingIndicator w)))) := by
  unfold sendMessageFinish sendMessageCatch
  simp only [h, addMessage_of_throws lib t response "assistant" _ hr,
    addMessage_of_renders lib tc (some (.str fallbackMessage)) "assistant" _ rfl]

/-! ## The claims about `sendMessage` -/

/-- C1 as amended: from an idle state and an input whose trimmed value `t` is non-empty,
`sendMessage` run to completion with no other handler in between leaves, for every outcome of the
backend call whose returned value the page can render, the previous messages followed by
exactly two: a `user` message with content `t`, then an `assistant` message whose content is what
`sendToBackend` returned, or the fixed apology when it threw; and on success (status in the 2xx
range, a non-null JSON body, no truthy `error`) what it returns is the body's `response` field.
Strings, numbers, booleans, `null`, a missing field, and objects and arrays that hold no object
with an own `toString` can all be rendered. -/
theorem sendMessage_appends_user_then_assistant (lib : JsLib) (t1 t2 tc : Ticks)
    (outcome : FetchOutcome) (w : World)
    (hidle : w.isProcessing = false) (hne : jsTrim w.dom.inputValue ≠ "")
    (hrender : ∀ response, sendToBackendFinish outcome = .ok response →
      toStringThrows response = false) :
    (sendMessage lib t1 t2 tc outcome w).messages = w.messages ++
        [ { props := [("id", some (.num t1.id)),
                      ("content", some (.str (jsTrim w.dom.inputValue))),
                      ("sender", some (.str "user"))]
            timestamp := some t1.stamp },
          { props := [("id", some (.num t2.id)),
                      ("content", match sendToBackendFinish outcome with
                                  | .ok response => response
                                  | .error _ => some (.str fallbackMessage)),
                      ("sender", some (.str "assistant"))]
            timestamp := some t2.stamp } ]
      ∧ (∀ status data, outcome = .response status (some data) → responseOk status = true →
          data ≠ .null → truthy (data.get "error") = false →
          sendToBackendFinish outcome = .ok (data.get "response"))
      ∧ (∀ s : String, toStringThrows (some (.str s)) = false)
      ∧ (∀ n : Int, toStringThrows (some (.num n)) = false)
      ∧ (∀ b : Bool, toStringThrows (some (.bool b)) = false)
      ∧ toStringThrows (some .null) = false
      ∧ toStringThrows none = false
      ∧ (∀ ps : List (String × Json), ps.lookup "toString" = none →
          toStringThrows (some (.obj ps)) = false) := by
  refine ⟨?_, ?_, fun _ => rfl, fun _ => rfl, fun _ => rfl, rfl, rfl, ?_⟩
  rotate_right
  · intro ps h
    simp [toStringThrows, Json.toStringThrows, h]
  · rw [sendMessage, sendMessageStart_accept lib t1 w hidle hne]
    cases h : sendToBackendFinish outcome with
    | error e =>
      simp only []
      rw [sendMessageFinish_of_failure lib t2 tc outcome _ h]
      simp [setProcessingState, hideTypingIndicator, sendToBackendStart, showTypingIndicator]
    | ok response =>
      simp only []
      rw [sendMessageFinish_of_success lib t2 tc outcome _ response h (hrender response h)]
      simp [setProcessingState, hideTypingIndicator, sendToBackendStart, showTypingIndicator]
  · rintro status data rfl hok hnull herr
    cases data <;> simp_all [sendToBackendFinish]

/-- C1 as amended, the scenario of the specification: input "I have a headache", reply
`response: "Please describe the duration."`. -/
theorem sendMessage_appends_user_then_assistant_witness :
    (exampleWorld "I have a headache").isProcessing = false
      ∧ jsTrim (exampleWorld "I have a headache").dom.inputValue ≠ ""
      ∧ (∀ response,
          sendToBackendFinish
            (.response 200 (some (.obj [("response", .str "Please describe the duration.")])))
            = .ok response → toStringThrows response = false)
      ∧ (sendMessage exampleLib exampleTicks1 exampleTicks2 exampleTicks3
          (.response 200 (some (.obj [("response", .str "Please describe the duration.")])))
          (exampleWorld "I have a headache")).messages =
        [ { props := [("id", some (.num 1705314600000)),
                      ("content", some (.str "I have a headache")),
                      ("sender", some (.str "user"))]
            timestamp := some 1705314600000 },
          { props := [("id", some (.num 1705314602000)),
                      ("content", some (.str "Please describe the duration.")),
                      ("sender", some (.str "assistant"))]
            timestamp := some 1705314602000 } ] :=
  have hrender : ∀ response,
      sendToBackendFinish
        (.response 200 (some (.obj [("response", .str "Please describe the duration.")])))
        = .ok response → toStringThrows response = false := by
    intro response h
    have h1 : sendToBackendFinish
        (.response 200 (some (.obj [("response", .str "Please describe the duration.")])))
        = .ok (some (.str "Please describe the duration.")) := rfl
    rw [h1] at h
    injection h with h
    rw [← h]
    rfl
  ⟨rfl, by decide, hrender,
    (sendMessage_appends_user_then_assistant exampleLib exampleTicks1 exampleTicks2 exampleTicks3
      (.response 200 (some (.obj [("response", .str "Please describe the duration.")])))
      (exampleWorld "I have a headache") rfl (by decide) hrender).1⟩

/-- C1 as stated fails in two ways.  A 200 reply whose `response` is an object with an own
`toString` makes `renderMessage` throw after `addMessage` has pushed the message; the throw
lands in the `catch` block of `sendMessage`, which appends the apology as a third message.  And
a confirmed `clearChat` run while the request is pending leaves, once `sendMessage` has settled,
the assistant message alone. -/
theorem sendMessage_three_messages_counterexample :
    sendToBackendFinish (.response 200 (some (.obj [("response", .obj [("toString", .num 1)])])))
        = .ok (some (.obj [("toString", .num 1)]))
      ∧ (sendMessage exampleLib exampleTicks1 exampleTicks2 exampleTicks3
          (.response 200 (some (.obj [("response", .obj [("toString", .num 1)])])))
          (exampleWorld "I have a headache")).messages =
        [ { props := [("id", some (.num 1705314600000)),
                      ("content", some (.str "I have a headache")),
                      ("sender", some (.str "user"))]
            timestamp := some 1705314600000 },
          { props := [("id", some (.num 1705314602000)),
                      ("content", some (.obj [("toString", .num 1)])),
                      ("sender", some (.str "assistant"))]
            timestamp := some 1705314602000 },
          { props := [("id", some (.num 1705314602002)),
                      ("content", some (.str fallbackMessage)),
                      ("sender", some (.str "assistant"))]
            timestamp := some 1705314602002 } ]
      ∧ (sendMessageFinish exampleLib exampleTicks2 exampleTicks3
          (.response 200 (some (.obj [("response", .str "Please describe the duration.")])))
          (clearChat true 1705314601000 "0.z9y8x7w6v5u"
            (sendMessageStart exampleLib exampleTicks1
              (exampleWorld "I have a headache")).1)).messages =
        [ { props := [("id", some (.num 1705314602000)),
                      ("content", some (.str "Please describe the duration.")),
                      ("sender", some (.str "assistant"))]
            timestamp := some 1705314602000 } ] :=
  ⟨rfl, rfl, rfl⟩

/-- C3: when a request is in flight or the input trims to the empty string, `sendMessage` returns
at its guard: no request becomes pending and the whole state is unchanged, in particular the
message list and its length, the session id, the persisted entry and the list of requests
issued. -/
theorem sendMessage_noop_when_busy_or_empty (lib : JsLib) (t1 t2 tc : Ticks)
    (outcome : FetchOutcome) (w : World)
    (h : w.isProcessing = true ∨ jsTrim w.dom.inputValue = "") :
    sendMessageStart lib t1 w = (w, false)
      ∧ sendMessage lib t1 t2 tc outcome w = w
      ∧ (sendMessage lib t1 t2 tc outcome w).messages = w.messages
      ∧ (sendMessage lib t1 t2 tc outcome w).messages.length = w.messages.length
      ∧ (sendMessage lib t1 t2 tc outcome w).sessionId = w.sessionId
      ∧ (sendMessage lib t1 t2 tc outcome w).storage.getItem storageKey
          = w.storage.getItem storageKey
      ∧ (sendMessage lib t1 t2 tc outcome w).requests = w.requests := by
  have hs := sendMessageStart_drop lib t1 w h
  have hw : sendMessage lib t1 t2 tc outcome w = w := by rw [sendMessage, hs]
  simp [hs, hw]

/-- C3 at a chat whose first request is still pending while the user sends again, and at an
idle chat whose input is blank. -/
theorem sendMessage_noop_when_busy_or_empty_witness :
    examplePending.isProcessing = true
      ∧ sendMessage exampleLib exampleTicks2 exampleTicks2 exampleTicks3 .networkError
          examplePending = examplePending
      ∧ (sendMessage exampleLib exampleTicks2 exampleTicks2 exampleTicks3 .networkError
          examplePending).messages.length = 1
      ∧ jsTrim (exampleWorld "  \n ").dom.inputValue = ""
      ∧ sendMessage exampleLib exampleTicks1 exampleTicks2 exampleTicks3 .networkError
          (exampleWorld "  \n ") = exampleWorld "  \n " :=
  ⟨rfl,
    (sendMessage_noop_when_busy_or_empty exampleLib exampleTicks2 exampleTicks2 exampleTicks3
      .networkError examplePending (Or.inl rfl)).2.1,
    (sendMessage_noop_when_busy_or_empty exampleLib exampleTicks2 exampleTicks2 exampleTicks3
      .networkError examplePending (Or.inl rfl)).2.2.2.1,
    by decide,
    (sendMessage_noop_when_busy_or_empty exampleLib exampleTicks1 exampleTicks2 exampleTicks3
      .networkError (exampleWorld "  \n ") (Or.inr (by decide))).2.1⟩

/-- C9: a send that passes the guard sets `isProcessing` before `fetch` is called (the request
is issued from a state in which the flag is already set, and the flag is set while the request is
pending); whatever the backend call settles with, the flag is clear and the input enabled once
`sendMessage` has settled, and a following `sendMessage` on any non-blank input `next` passes
the guard again. -/
theorem isProcessing_set_then_cleared (lib : JsLib) (t1 t2 tc t3 : Ticks)
    (outcome : FetchOutcome) (w : World) (next : String)
    (hidle : w.isProcessing = false) (hne : jsTrim w.dom.inputValue ≠ "")
    (hnext : jsTrim next ≠ "") :
    (sendMessageStart lib t1 w).2 = true
      ∧ (∃ w1 : World, w1.isProcessing = true
          ∧ (sendMessageStart lib t1 w).1
              = sendToBackendStart lib (jsTrim w.dom.inputValue) w1)
      ∧ (sendMessageStart lib t1 w).1.isProcessing = true
      ∧ (sendMessage lib t1 t2 tc outcome w).isProcessing = false
      ∧ (sendMessage lib t1 t2 tc outcome w).dom.inputDisabled = false
      ∧ (sendMessageStart lib t3 (typeInput next (sendMessage lib t1 t2 tc outcome w))).2
          = true := by
  have hs := sendMessageStart_accept lib t1 w hidle hne
  have hfin : ∀ w1 : World, ∃ w2 : World,
      sendMessageFinish lib t2 tc outcome w1 = setProcessingState false w2 := by
    intro w1
    unfold sendMessageFinish sendMessageCatch
    cases sendToBackendFinish outcome with
    | error e =>
      simp only []
      cases addMessage lib t2 (some (.str fallbackMessage)) "assistant"
        (hideTypingIndicator w1) <;> exact ⟨_, rfl⟩
    | ok response =>
      simp only []
      cases addMessage lib t2 response "assistant" (hideTypingIndicator w1) with
      | ok w2 => exact ⟨_, rfl⟩
      | error w2 =>
        simp only []
        cases addMessage lib tc (some (.str fallbackMessage)) "assistant"
          (hideTypingIndicator w2) <;> exact ⟨_, rfl⟩
  have hclear : (sendMessage lib t1 t2 tc outcome w).isProcessing = false := by
    rw [sendMessage, hs]
    obtain ⟨w2, h2⟩ := hfin (sendToBackendStart lib (jsTrim w.dom.inputValue)
      (setProcessingState true (showTypingIndicator
        { addMessageOk lib t1 (some (.str (jsTrim w.dom.inputValue))) "user" w with
          dom := { (addMessageOk lib t1 (some (.str (jsTrim w.dom.inputValue))) "user" w).dom
            with inputValue := "" } })))
    simp only [h2]
    rfl
  refine ⟨by rw [hs], ⟨_, ?_, by rw [hs]⟩, ?_, hclear, ?_, ?_⟩
  · simp [setProcessingState]
  · rw [hs]; simp [sendToBackendStart, setProcessingState]
  · rw [sendMessage, hs]
    obtain ⟨w2, h2⟩ := hfin (sendToBackendStart lib (jsTrim w.dom.inputValue)
      (setProcessingState true (showTypingIndicator
        { addMessageOk lib t1 (some (.str (jsTrim w.dom.inputValue))) "user" w with
          dom := { (addMessageOk lib t1 (some (.str (jsTrim w.dom.inputValue))) "user" w).dom
            with inputValue := "" } })))
    simp only [h2]
    rfl
  · rw [sendMessageStart_accept lib t3 (typeInput next (sendMessage lib t1 t2 tc outcome w))
      (by simpa [typeInput] using hclear) (by simpa [typeInput] using hnext)]

/-- C9 at the scenario of the specification with a rejected `fetch`. -/
theorem isProcessing_set_then_cleared_witness :
    (exampleWorld "I have a headache").isProcessing = false
      ∧ jsTrim (exampleWorld "I have a headache").dom.inputValue ≠ ""
      ∧ jsTrim "Since yesterday" ≠ ""
      ∧ (sendMessageStart exampleLib exampleTicks1
          (exampleWorld "I have a headache")).1.isProcessing = true
      ∧ (sendMessage exampleLib exampleTicks1 exampleTicks2 exampleTicks3 .networkError
          (exampleWorld "I have a headache")).isProcessing = false :=
  ⟨rfl, by decide, by decide,
    (isProcessing_set_then_cleared exampleLib exampleTicks1 exampleTicks2 exampleTicks3
      exampleTicks3 .networkError (exampleWorld "I have a headache") "Since yesterday" rfl (by decide)
      (by decide)).2.2.1,
    (isProcessing_set_then_cleared exampleLib exampleTicks1 exampleTicks2 exampleTicks3
      exampleTicks3 .networkError (exampleWorld "I have a headache") "Since yesterday" rfl (by decide)
      (by decide)).2.2.2.1⟩

/-- C2 as amended: a reply with a status outside the 2xx range, and a reply whose body has a
truthy `error` field, make `sendToBackend` throw, and `sendMessage` then appends, after the user
message, an assistant message whose content is the fixed apology. -/
theorem sendMessage_fallback_on_failed_reply (lib : JsLib) (t1 t2 tc : Ticks) (w : World)
    (status : Nat) (body : Option Json)
    (hidle : w.isProcessing = false) (hne : jsTrim w.dom.inputValue ≠ "")
    (hfail : responseOk status = false
      ∨ ∃ data, body = some data ∧ truthy (data.get "error") = true) :
    sendToBackendFinish (.response status body) = .error ()
      ∧ (sendMessage lib t1 t2 tc (.response status body) w).messages = w.messages ++
        [ { props := [("id", some (.num t1.id)),
                      ("content", some (.str (jsTrim w.dom.inputValue))),
                      ("sender", some (.str "user"))]
            timestamp := some t1.stamp },
          { props := [("id", some (.num t2.id)),
                      ("content", some (.str
                        "I apologize, but I encountered an error processing your request. Please try again.")),
                      ("sender", some (.str "assistant"))]
            timestamp := some t2.stamp } ] := by
  have hthrow : sendToBackendFinish (.response status body) = .error () := by
    rcases hfail with h | ⟨data, rfl, h⟩
    · simp [sendToBackendFinish, h]
    · cases data <;> simp_all [sendToBackendFinish, Json.get, truthy]
  refine ⟨hthrow, ?_⟩
  rw [sendMessage, sendMessageStart_accept lib t1 w hidle hne]
  simp only []
  rw [sendMessageFinish_of_failure lib t2 tc _ _ hthrow]
  simp [setProcessingState, hideTypingIndicator, sendToBackendStart, showTypingIndicator,
    fallbackMessage]

/-- C2 as amended, at HTTP 500 and at a 200 reply with `error: "model unavailable"`. -/
theorem sendMessage_fallback_on_failed_reply_witness :
    (exampleWorld "I have a headache").isProcessing = false
      ∧ jsTrim (exampleWorld "I have a headache").dom.inputValue ≠ ""
      ∧ responseOk 500 = false
      ∧ sendToBackendFinish (.response 500 none) = .error ()
      ∧ truthy ((Json.obj [("error", .str "model unavailable")]).get "error") = true
      ∧ sendToBackendFinish
          (.response 200 (some (.obj [("error", .str "model unavailable")]))) = .error () :=
  ⟨rfl, by decide, rfl,
    (sendMessage_fallback_on_failed_reply exampleLib exampleTicks1 exampleTicks2 exampleTicks3
      (exampleWorld "I have a headache") 500 none rfl (by decide) (Or.inl rfl)).1,
    rfl,
    (sendMessage_fallback_on_failed_reply exampleLib exampleTicks1 exampleTicks2 exampleTicks3
      (exampleWorld "I have a headache") 200 (some (.obj [("error", .str "model unavailable")]))
      rfl (by decide) (Or.inr ⟨_, rfl, rfl⟩)).1⟩

/-- C2 as stated fails: a 200 reply whose body has the field `error: ""` next to
`response: "Drink water."` does not make `sendToBackend` throw; the assistant message carries the
`response` field, not the apology. -/
theorem falsy_error_field_counterexample :
    (Json.obj [("error", .str ""), ("response", .str "Drink water.")]).get "error"
        = some (.str "")
      ∧ sendToBackendFinish
          (.response 200 (some (.obj [("error", .str ""), ("response", .str "Drink water.")])))
        = .ok (some (.str "Drink water."))
      ∧ (sendMessage exampleLib exampleTicks1 exampleTicks2 exampleTicks3
          (.response 200 (some (.obj [("error", .str ""), ("response", .str "Drink water.")])))
          (exampleWorld "I have a headache")).messages =
        [ { props := [("id", some (.num 1705314600000)),
                      ("content", some (.str "I have a headache")),
                      ("sender", some (.str "user"))]
            timestamp := some 1705314600000 },
          { props := [("id", some (.num 1705314602000)),
                      ("content", some (.str "Drink water.")),
                      ("sender", some (.str "assistant"))]
            timestamp := some 1705314602000 } ]
      ∧ "Drink water." ≠ fallbackMessage :=
  ⟨rfl, rfl, rfl, by decide⟩

/-- C7 as amended: the request a send issues is a POST to `/api/chat` whose body carries
`message` = the trimmed input, `session_id` = the current session id, and
`conversation_history` = the message list as it stands when the request is built, that is the
messages prior to the current one followed by the current user message itself (one entry more
than the prior list), in order, each reduced by `historyEntry` to role, content and timestamp;
the role is `user` for a `user` sender and `assistant` for an `assistant` sender. -/
theorem request_carries_message_session_history (lib : JsLib) (t : Ticks) (w : World)
    (hidle : w.isProcessing = false) (hne : jsTrim w.dom.inputValue ≠ "") :
    (sendMessageStart lib t w).1.requests = w.requests ++
        [ { url := "/api/chat", method := "POST", contentType := "application/json"
            body := requestDataToJson lib
              { message := jsTrim w.dom.inputValue
                session_id := w.sessionId
                conversation_history :=
                  w.messages.map historyEntry ++
                    [ { role := "user"
                        content := some (.str (jsTrim w.dom.inputValue))
                        timestamp := some t.stamp } ] } } ]
      ∧ (w.messages.map historyEntry ++
          [ ({ role := "user", content := some (.str (jsTrim w.dom.inputValue)),
               timestamp := some t.stamp } : HistoryEntry) ]).length = w.messages.length + 1
      ∧ (∀ msg : Message, (historyEntry msg).content = msg.get "content"
          ∧ (historyEntry msg).timestamp = msg.timestamp
          ∧ (msg.get "sender" = some (.str "user") → (historyEntry msg).role = "user")
          ∧ (msg.get "sender" = some (.str "assistant") →
              (historyEntry msg).role = "assistant")) := by
  refine ⟨?_, by simp, ?_⟩
  · rw [sendMessageStart_accept lib t w hidle hne]
    simp only [sendToBackendStart, requestData, getConversationHistory, setProcessingState,
      showTypingIndicator, addMessageOk_requests, addMessageOk_sessionId,
      addMessageOk_messages,
      List.map_append, List.map_cons, List.map_nil]
    rfl
  · intro msg
    refine ⟨rfl, rfl, ?_, ?_⟩
    · intro h; simp [historyEntry, h, strictEqualsString]
    · intro h; simp [historyEntry, h, strictEqualsString]

/-- C7 as amended, at the first send of a chat. -/
theorem request_carries_message_session_history_witness :
    (exampleWorld "I have a headache").isProcessing = false
      ∧ jsTrim (exampleWorld "I have a headache").dom.inputValue ≠ ""
      ∧ (sendMessageStart exampleLib exampleTicks1
          (exampleWorld "I have a headache")).1.requests =
        [ { url := "/api/chat", method := "POST", contentType := "application/json"
            body := .obj
              [ ("message", .str "I have a headache"),
                ("session_id", .str "session_1705314000000_k3j9x0q1z"),
                ("conversation_history", .arr
                  [ .obj [ ("role", .str "user"), ("content", .str "I have a headache"),
                           ("timestamp", .str "2024-01-15T10:30:00.000Z") ] ]) ] } ] :=
  ⟨rfl, by decide,
    (request_carries_message_session_history exampleLib exampleTicks1
      (exampleWorld "I have a headache") rfl (by decide)).1⟩

/-- C7 as stated fails: on the first send of a chat the list of prior messages is empty, yet
`conversation_history` has one entry, the current message itself. -/
theorem history_includes_current_message_counterexample :
    (exampleWorld "I have a headache").messages = []
      ∧ (sendMessageStart exampleLib exampleTicks1
          (exampleWorld "I have a headache")).1.requests.map (fun call => call.body) =
        [ .obj
            [ ("message", .str "I have a headache"),
              ("session_id", .str "session_1705314000000_k3j9x0q1z"),
              ("conversation_history", .arr
                [ .obj [ ("role", .str "user"), ("content", .str "I have a headache"),
                         ("timestamp", .str "2024-01-15T10:30:00.000Z") ] ]) ] ] :=
  ⟨rfl, rfl⟩

/-! ## Storage lemmas -/

theorem getItem_setItem (st st1 : Storage) (key : String) (value : StoredText)
    (h : st.setItem key value = .ok st1) : st1.getItem key = some value := by
  unfold Storage.setItem at h
  split at h
  · cases h
  · cases h; simp [Storage.getItem, List.lookup]

theorem setItem_ok (st : Storage) (key : String) (value : StoredText) (h : st.full = false) :
    st.setItem key value =
      .ok { st with items := (key, value) :: st.items.filter (fun p => p.1 != key) } := by
  simp [Storage.setItem, h]

theorem lookup_filter_ne (items : List (String × StoredText)) (key : String) :
    (items.filter (fun p => p.1 != key)).lookup key = none := by
  induction items with
  | nil => rfl
  | cons p ps ih =>
    obtain ⟨k, v⟩ := p
    by_cases h : k = key
    · have hb : ((k, v).1 != key) = false := by simp [h]
      rw [List.filter_cons, hb]
      exact ih
    · have hb : ((k, v).1 != key) = true := by simpa using h
      have h1 : (key == k) = false := by simpa using fun e => h e.symm
      rw [List.filter_cons, hb]
      simp only [if_true, List.lookup_cons, h1]
      exact ih

theorem getItem_removeItem (st : Storage) (key : String) :
    (st.removeItem key).getItem key = none := by
  simp [Storage.removeItem, Storage.getItem, lookup_filter_ne]

theorem saveSession_storage (lib : JsLib) (now : Int) (w : World) (h : w.storage.full = false) :
    (saveSession lib now w).storage.getItem storageKey
      = some (.json (sessionDataToJson lib w now)) := by
  unfold saveSession
  rw [setItem_ok _ _ _ h]
  simp [Storage.getItem, List.lookup]

theorem sessionData_get_sessionId (lib : JsLib) (w : World) (now : Int) :
    (sessionDataToJson lib w now).get "sessionId" = w.sessionId := by
  unfold sessionDataToJson
  cases h : w.sessionId <;> simp [optProp, Json.get, List.lookup]

theorem sessionData_get_messages (lib : JsLib) (w : World) (now : Int) :
    (sessionDataToJson lib w now).get "messages"
      = some (.arr (w.messages.map (messageToJson lib))) := by
  unfold sessionDataToJson
  cases h : w.sessionId <;> simp [optProp, Json.get, List.lookup]

theorem sessionData_get_timestamp (lib : JsLib) (w : World) (now : Int) :
    (sessionDataToJson lib w now).get "timestamp" = some (.num now) := by
  unfold sessionDataToJson
  cases h : w.sessionId <;> simp [optProp, Json.get, List.lookup]

/-! ## Session ids are determined by the clock reading -/

theorem digit_toNat (d : Nat) (h : d < 10) : (Char.ofNat (48 + d)).toNat = 48 + d := by
  interval_cases d <;> rfl

theorem digitsValue_append (cs : List Char) (c : Char) :
    digitsValue (cs ++ [c]) = 10 * digitsValue cs + (c.toNat - 48) := by
  simp [digitsValue, List.foldl_append]

theorem digitsValue_natDigits (fuel n : Nat) (h : n < 10 ^ fuel) :
    digitsValue (natDigits fuel n) = n := by
  induction fuel generalizing n with
  | zero => simp at h; subst h; rfl
  | succ fuel ih =>
    unfold natDigits
    split
    · rename_i hlt
      simp [digitsValue, digit_toNat n hlt]
    · have hdiv : n / 10 < 10 ^ fuel := by
        rw [Nat.div_lt_iff_lt_mul (by decide)]
        rw [pow_succ] at h
        exact h
      rw [digitsValue_append, ih _ hdiv, digit_toNat _ (Nat.mod_lt _ (by decide))]
      omega

theorem natDigits_mem (fuel n : Nat) (c : Char) (h : c ∈ natDigits fuel n) :
    48 ≤ c.toNat ∧ c.toNat < 58 := by
  induction fuel generalizing n with
  | zero => cases h
  | succ fuel ih =>
    unfold natDigits at h
    split at h
    · rename_i hlt
      simp only [List.mem_singleton] at h
      subst h
      rw [digit_toNat n hlt]; omega
    · rcases List.mem_append.mp h with h1 | h1
      · exact ih _ h1
      · simp only [List.mem_singleton] at h1
        subst h1
        have := Nat.mod_lt n (show 10 > 0 by decide)
        rw [digit_toNat _ this]; omega

theorem numberToString_data_mem (n : Int) (c : Char) (h : c ∈ (numberToString n).data) :
    c ≠ '_' := by
  unfold numberToString at h
  split at h
  · rcases List.mem_cons.mp h with h1 | h1
    · subst h1; decide
    · have := natDigits_mem _ _ _ h1
      rintro rfl
      exact absurd this.2 (by decide)
  · have := natDigits_mem _ _ _ h
    rintro rfl
    exact absurd this.2 (by decide)

theorem numberToString_injective (n m : Int) (hn : n.natAbs < 10 ^ 32) (hm : m.natAbs < 10 ^ 32)
    (h : numberToString n = numberToString m) : n = m := by
  have hv := fun k (hk : k < 10 ^ 32) => digitsValue_natDigits 32 k hk
  have hhead : ∀ k : Nat, ¬ (∃ cs, natDigits 32 k = '-' :: cs) := by
    rintro k ⟨cs, hcs⟩
    have := natDigits_mem 32 k '-' (by rw [hcs]; exact List.mem_cons_self _ _)
    exact absurd this.1 (by decide)
  unfold numberToString at h
  split at h <;> split at h
  · have e : natDigits 32 n.natAbs = natDigits 32 m.natAbs := by
      have := congrArg String.data h
      simpa using this
    have e2 := congrArg digitsValue e
    rw [hv _ hn, hv _ hm] at e2
    omega
  · exact absurd ⟨_, (congrArg String.data h).symm⟩ (hhead _)
  · exact absurd ⟨_, congrArg String.data h⟩ (hhead _)
  · have e : natDigits 32 n.natAbs = natDigits 32 m.natAbs := congrArg String.data h
    have e2 := congrArg digitsValue e
    rw [hv _ hn, hv _ hm] at e2
    omega

theorem append_sep_cancel (a b c d : List Char) (ha : ∀ x ∈ a, x ≠ '_') (hc : ∀ x ∈ c, x ≠ '_')
    (h : a ++ '_' :: b = c ++ '_' :: d) : a = c := by
  induction a generalizing c with
  | nil =>
    cases c with
    | nil => rfl
    | cons y ys =>
      simp only [List.nil_append, List.cons_append, List.cons.injEq] at h
      exact absurd h.1.symm (hc y (List.mem_cons_self _ _))
  | cons x xs ih =>
    cases c with
    | nil =>
      simp only [List.nil_append, List.cons_append, List.cons.injEq] at h
      exact absurd h.1 (ha x (List.mem_cons_self _ _))
    | cons y ys =>
      simp only [List.cons_append, List.cons.injEq] at h
      rw [h.1, ih ys (fun z hz => ha z (List.mem_cons_of_mem _ hz))
        (fun z hz => hc z (List.mem_cons_of_mem _ hz)) h.2]

theorem generateSessionId_now_injective (now now1 : Int) (rnd rnd1 : String)
    (hn : now.natAbs < 10 ^ 32) (hm : now1.natAbs < 10 ^ 32)
    (h : generateSessionId now rnd = generateSessionId now1 rnd1) : now = now1 := by
  unfold generateSessionId at h
  have hd := congrArg String.data h
  simp only [String.data_append, List.append_assoc] at hd
  have hd1 := List.append_cancel_left hd
  simp only [List.singleton_append] at hd1
  have e := append_sep_cancel _ _ _ _ (numberToString_data_mem now) (numberToString_data_mem now1) hd1
  exact numberToString_injective now now1 hn hm (String.ext e)

theorem loadSession_of_stale (lib : JsLib) (now timestamp : Int) (doc : Json) (w : World)
    (hentry : w.storage.getItem storageKey = some (.json doc))
    (hts : toNumber lib (doc.get "timestamp") = some timestamp)
    (hage : ¬ now - timestamp < oneDay) : loadSession lib now w = w := by
  unfold loadSession loadSessionTry
  rw [hentry]
  cases doc <;> simp only [StoredText.truthy, hts, if_neg hage, if_true]

theorem loadSession_of_unusable (lib : JsLib) (now : Int) (entry : StoredText) (w : World)
    (hentry : w.storage.getItem storageKey = some entry)
    (hbad : (∃ s, entry = .notJson s)
      ∨ ∃ doc, entry = .json doc ∧ toNumber lib (doc.get "timestamp") = none) :
    loadSession lib now w = w := by
  unfold loadSession loadSessionTry
  rw [hentry]
  rcases hbad with ⟨s, rfl⟩ | ⟨doc, rfl, h⟩
  · by_cases hs : (s != "") = true <;> simp only [StoredText.truthy, hs] <;> rfl
  · cases doc <;> simp only [StoredText.truthy, h, if_true]

/-! ## Round trip lemmas -/

theorem renderMessage_frame (m : Message) (w w1 : World) (h : renderMessage m w = .ok w1) :
    w1.messages = w.messages ∧ w1.sessionId = w.sessionId := by
  unfold renderMessage at h
  split at h
  · cases h
  · split at h
    · cases h
    · split at h
      · cases h
      · cases h; exact ⟨rfl, rfl⟩

theorem renderAll_frame (ms : List Message) (w r : World)
    (h : renderAll ms w = .ok r ∨ renderAll ms w = .error r) :
    r.messages = w.messages ∧ r.sessionId = w.sessionId := by
  induction ms generalizing w with
  | nil =>
    rcases h with h | h
    · cases h; exact ⟨rfl, rfl⟩
    · cases h
  | cons m ms ih =>
    unfold renderAll at h
    cases hm : renderMessage m w with
    | error e =>
      rw [hm] at h
      rcases h with h | h
      · cases h
      · cases h; exact ⟨rfl, rfl⟩
    | ok w1 =>
      rw [hm] at h
      have h1 := renderMessage_frame m w w1 hm
      have h2 := ih w1 h
      exact ⟨h2.1.trans h1.1, h2.2.trans h1.2⟩

theorem loadSession_of_fresh (lib : JsLib) (now timestamp : Int) (ps : List (String × Json))
    (ms : List Message) (w : World)
    (hentry : w.storage.getItem storageKey = some (.json (.obj ps)))
    (hts : toNumber lib ((Json.obj ps).get "timestamp") = some timestamp)
    (hage : now - timestamp < oneDay)
    (hms : reviveMessages lib ((Json.obj ps).get "messages") = .ok ms) :
    (loadSession lib now w).sessionId = (Json.obj ps).get "sessionId"
      ∧ (loadSession lib now w).messages = ms := by
  unfold loadSession loadSessionTry
  rw [hentry]
  simp only [StoredText.truthy, hts, if_pos hage, if_true, hms]
  cases hthrow : toStringThrows ((Json.obj ps).get "sessionId") with
  | true => simp
  | false =>
    simp only [Bool.false_eq_true, if_false]
    cases hr : renderAll ms
        { sessionId := (Json.obj ps).get "sessionId", messages := ms,
          isProcessing := w.isProcessing,
          dom := { w.dom with sessionIdText := (Json.obj ps).get "sessionId" },
          storage := w.storage, requests := w.requests } with
    | error r =>
      have h := renderAll_frame ms _ r (Or.inr hr)
      simpa using ⟨h.2, h.1⟩
    | ok r =>
      have h := renderAll_frame ms _ r (Or.inl hr)
      simpa [updateMessageCount] using ⟨h.2, h.1⟩

theorem lookup_flatMap_optProp_none (props : List (String × JsValue)) (k : String)
    (h : k ∉ props.map Prod.fst) :
    (props.flatMap (fun p => optProp p.1 p.2)).lookup k = none := by
  induction props with
  | nil => rfl
  | cons p ps ih =>
    obtain ⟨k1, v⟩ := p
    simp only [List.map_cons, List.mem_cons, not_or] at h
    have hk : (k == k1) = false := by simpa using h.1
    cases v with
    | none => exact ih h.2
    | some j =>
      show List.lookup k ((k1, j) :: ps.flatMap (fun p => optProp p.1 p.2)) = none
      rw [List.lookup_cons, hk]
      exact ih h.2

theorem lookup_flatMap_optProp (props : List (String × JsValue)) (k : String)
    (h : (props.map Prod.fst).Nodup) :
    (props.flatMap (fun p => optProp p.1 p.2)).lookup k = (props.lookup k).join := by
  induction props with
  | nil => rfl
  | cons p ps ih =>
    obtain ⟨k1, v⟩ := p
    simp only [List.map_cons, List.nodup_cons] at h
    by_cases hk : k = k1
    · subst hk
      have hb : (k == k) = true := by simp
      cases v with
      | none =>
        show List.lookup k (ps.flatMap (fun p => optProp p.1 p.2))
          = (List.lookup k ((k, none) :: ps)).join
        rw [List.lookup_cons, hb, lookup_flatMap_optProp_none ps k h.1]
        rfl
      | some j =>
        show List.lookup k ((k, j) :: ps.flatMap (fun p => optProp p.1 p.2))
          = (List.lookup k ((k, some j) :: ps)).join
        rw [List.lookup_cons, List.lookup_cons, hb]
        rfl
    · have hb : (k == k1) = false := by simpa using hk
      cases v with
      | none =>
        show List.lookup k (ps.flatMap (fun p => optProp p.1 p.2))
          = (List.lookup k ((k1, none) :: ps)).join
        rw [List.lookup_cons, hb]
        exact ih h.2
      | some j =>
        show List.lookup k ((k1, j) :: ps.flatMap (fun p => optProp p.1 p.2))
          = (List.lookup k ((k1, some j) :: ps)).join
        rw [List.lookup_cons, List.lookup_cons, hb]
        exact ih h.2

theorem lookup_append_of_none (l1 l2 : List (String × Json)) (k : String)
    (h : l1.lookup k = none) : (l1 ++ l2).lookup k = l2.lookup k := by
  induction l1 with
  | nil => rfl
  | cons p ps ih =>
    obtain ⟨k1, v⟩ := p
    rw [List.lookup_cons] at h
    rw [List.cons_append, List.lookup_cons]
    cases hb : (k == k1) with
    | true => rw [hb] at h; cases h
    | false => rw [hb] at h; exact ih h

theorem keys_flatMap_optProp (props : List (String × JsValue)) (p : String × Json)
    (h : p ∈ props.flatMap (fun p => optProp p.1 p.2)) : p.1 ∈ props.map Prod.fst := by
  induction props with
  | nil => cases h
  | cons q qs ih =>
    obtain ⟨k1, v⟩ := q
    cases v with
    | none => exact List.mem_cons_of_mem _ (ih h)
    | some j =>
      have h1 : p ∈ (k1, j) :: qs.flatMap (fun p => optProp p.1 p.2) := h
      rcases List.mem_cons.mp h1 with e | e
      · subst e; exact List.mem_cons_self _ _
      · exact List.mem_cons_of_mem _ (ih e)

theorem lookup_map_some (l : List (String × Json)) (k : String) :
    ((l.map (fun p => (p.1, some p.2))).lookup k).join = l.lookup k := by
  induction l with
  | nil => rfl
  | cons p ps ih =>
    obtain ⟨k1, v⟩ := p
    rw [List.map_cons, List.lookup_cons, List.lookup_cons]
    cases hb : (k == k1) with
    | true => rfl
    | false => exact ih

/-- What `loadSession` rebuilds from the stored form of `m`: `undefined` properties are gone. -/
theorem reviveMessage_messageToJson (lib : JsLib) (m : Message) (hwf : m.WellFormed)
    (t : Int) (ht : m.timestamp = some t) (hparse : lib.dateParse (lib.toISOString t) = some t) :
    reviveMessage lib (messageToJson lib m) =
      .ok { props := (m.props.flatMap (fun p => optProp p.1 p.2)).map (fun p => (p.1, some p.2))
            timestamp := m.timestamp } := by
  have hnone := lookup_flatMap_optProp_none m.props "timestamp" hwf.2
  have hfilter :
      ((m.props.flatMap (fun p => optProp p.1 p.2)
          ++ [("timestamp", dateToJson lib m.timestamp)]).filter (fun p => p.1 != "timestamp"))
        = m.props.flatMap (fun p => optProp p.1 p.2) := by
    rw [List.filter_append]
    have h1 : (m.props.flatMap (fun p => optProp p.1 p.2)).filter (fun p => p.1 != "timestamp")
        = m.props.flatMap (fun p => optProp p.1 p.2) := by
      rw [List.filter_eq_self]
      intro p hp
      have := keys_flatMap_optProp m.props p hp
      have hne : p.1 ≠ "timestamp" := fun e => hwf.2 (e ▸ this)
      simpa using hne
    rw [h1]
    simp
  have hdate : newDate lib ((messageToJson lib m).get "timestamp") = m.timestamp := by
    simp only [messageToJson, Json.get]
    rw [lookup_append_of_none _ _ _ hnone, ht]
    simp [List.lookup_cons, dateToJson, newDate, hparse]
  unfold reviveMessage
  rw [hdate]
  simp only [messageToJson, ownProps, hfilter]

theorem revived_get (m : Message) (hwf : m.WellFormed) (k : String) :
    Message.get
      { props := (m.props.flatMap (fun p => optProp p.1 p.2)).map (fun p => (p.1, some p.2))
        timestamp := m.timestamp } k = m.get k := by
  unfold Message.get
  rw [lookup_map_some, lookup_flatMap_optProp _ _ hwf.1]

theorem mapM_reviveMessage_messageToJson (lib : JsLib) (ms : List Message)
    (hwf : ∀ m ∈ ms, m.WellFormed)
    (hdate : ∀ m ∈ ms, ∃ t, m.timestamp = some t ∧ lib.dateParse (lib.toISOString t) = some t) :
    (ms.map (messageToJson lib)).mapM (reviveMessage lib) =
      .ok (ms.map (fun m =>
        { props := (m.props.flatMap (fun p => optProp p.1 p.2)).map (fun p => (p.1, some p.2))
          timestamp := m.timestamp })) := by
  induction ms with
  | nil => rfl
  | cons m ms ih =>
    obtain ⟨t, ht, hparse⟩ := hdate m (List.mem_cons_self _ _)
    have h1 := reviveMessage_messageToJson lib m (hwf m (List.mem_cons_self _ _)) t ht hparse
    have h2 := ih (fun x hx => hwf x (List.mem_cons_of_mem _ hx))
      (fun x hx => hdate x (List.mem_cons_of_mem _ hx))
    rw [List.map_cons, List.mapM_cons, h1, h2]
    rfl

theorem reviveMessages_messageToJson (lib : JsLib) (ms : List Message)
    (hwf : ∀ m ∈ ms, m.WellFormed)
    (hdate : ∀ m ∈ ms, ∃ t, m.timestamp = some t ∧ lib.dateParse (lib.toISOString t) = some t) :
    reviveMessages lib (some (.arr (ms.map (messageToJson lib)))) =
      .ok (ms.map (fun m =>
        { props := (m.props.flatMap (fun p => optProp p.1 p.2)).map (fun p => (p.1, some p.2))
          timestamp := m.timestamp })) :=
  mapM_reviveMessage_messageToJson lib ms hwf hdate

theorem map_some_flatMap_optProp (props : List (String × JsValue)) :
    (props.flatMap (fun p => optProp p.1 p.2)).map (fun p => (p.1, some p.2))
      = props.filter (fun p => p.2.isSome) := by
  induction props with
  | nil => rfl
  | cons p ps ih =>
    obtain ⟨k, v⟩ := p
    cases v with
    | none =>
      show ((ps.flatMap (fun p => optProp p.1 p.2)).map (fun p => (p.1, some p.2))) = _
      rw [ih]; rfl
    | some j =>
      show (k, some j) :: ((ps.flatMap (fun p => optProp p.1 p.2)).map
        (fun p => (p.1, some p.2))) = _
      rw [ih]; rfl

/-! ## The claims about persistence -/

/-- C5: a stored entry whose age, the clock reading of `loadSession` minus the entry's
`timestamp`, is 86,400,000 ms or more is skipped by `loadSession`; the session built by the
constructor keeps the id it has just generated and an empty message list, whatever session id
and messages the entry holds. -/
theorem loadSession_discards_stale_entry (lib : JsLib) (page : Dom) (storage : Storage)
    (nowId : Int) (rnd : String) (nowLoad timestamp : Int) (doc : Json)
    (hentry : storage.getItem storageKey = some (.json doc))
    (hts : toNumber lib (doc.get "timestamp") = some timestamp)
    (hage : 86400000 ≤ nowLoad - timestamp) :
    (construct lib page storage nowId rnd nowLoad).sessionId
        = some (.str (generateSessionId nowId rnd))
      ∧ (construct lib page storage nowId rnd nowLoad).messages = []
      ∧ ∀ w : World, w.storage = storage → loadSession lib nowLoad w = w := by
  have hnot : ¬ nowLoad - timestamp < oneDay := by
    have : oneDay = 86400000 := by decide
    omega
  refine ⟨?_, ?_, ?_⟩
  · unfold construct
    rw [loadSession_of_stale lib nowLoad timestamp doc _ (by simpa [bindEvents, initializeElements] using hentry) hts hnot]
    rfl
  · unfold construct
    rw [loadSession_of_stale lib nowLoad timestamp doc _ (by simpa [bindEvents, initializeElements] using hentry) hts hnot]
    rfl
  · intro w hw
    exact loadSession_of_stale lib nowLoad timestamp doc w (by rw [hw]; exact hentry) hts hnot

/-- C5 at an entry saved exactly 24 hours before the page is loaded. -/
theorem loadSession_discards_stale_entry_witness :
    exampleStaleStorage.getItem storageKey = some (.json exampleStoredDoc)
      ∧ toNumber exampleLib (exampleStoredDoc.get "timestamp") = some 1705314602001
      ∧ (86400000 : Int) ≤ 1705401002001 - 1705314602001
      ∧ (construct exampleLib examplePage exampleStaleStorage 1705401002000 "0.k3j9x0q1zab"
          1705401002001).sessionId = some (.str "session_1705401002000_k3j9x0q1z")
      ∧ (construct exampleLib examplePage exampleStaleStorage 1705401002000 "0.k3j9x0q1zab"
          1705401002001).messages = [] :=
  ⟨rfl, rfl, by decide,
    (loadSession_discards_stale_entry exampleLib examplePage exampleStaleStorage 1705401002000
      "0.k3j9x0q1zab" 1705401002001 1705314602001 exampleStoredDoc rfl rfl (by decide)).1,
    (loadSession_discards_stale_entry exampleLib examplePage exampleStaleStorage 1705401002000
      "0.k3j9x0q1zab" 1705401002001 1705314602001 exampleStoredDoc rfl rfl (by decide)).2.1⟩

/-- C8 as amended: `loadSession` is a total function whose `catch` absorbs every throw of its
`try` block, and an entry that is not valid JSON, or whose JSON has no `timestamp` that coerces
to a number (the document `null`, a non-object, a missing or non-numeric `timestamp`), leaves the
state untouched: the session built by the constructor keeps the id it has just generated and an
empty message list. -/
theorem loadSession_ignores_unreadable_entry (lib : JsLib) (page : Dom) (storage : Storage)
    (nowId : Int) (rnd : String) (nowLoad : Int) (entry : StoredText)
    (hentry : storage.getItem storageKey = some entry)
    (hbad : (∃ s, entry = .notJson s)
      ∨ ∃ doc, entry = .json doc ∧ toNumber lib (doc.get "timestamp") = none) :
    (construct lib page storage nowId rnd nowLoad).sessionId
        = some (.str (generateSessionId nowId rnd))
      ∧ (construct lib page storage nowId rnd nowLoad).messages = []
      ∧ ∀ w : World, w.storage = storage → loadSession lib nowLoad w = w := by
  refine ⟨?_, ?_, ?_⟩
  · unfold construct
    rw [loadSession_of_unusable lib nowLoad entry _
      (by simpa [bindEvents, initializeElements] using hentry) hbad]
    rfl
  · unfold construct
    rw [loadSession_of_unusable lib nowLoad entry _
      (by simpa [bindEvents, initializeElements] using hentry) hbad]
    rfl
  · intro w hw
    exact loadSession_of_unusable lib nowLoad entry w (by rw [hw]; exact hentry) hbad

/-- C8 as amended, at a truncated text and at a document without `timestamp`. -/
theorem loadSession_ignores_unreadable_entry_witness :
    exampleTruncatedStorage.getItem storageKey
        = some (.notJson "\x7b\"sessionId\":\"session_17")
      ∧ (construct exampleLib examplePage exampleTruncatedStorage 1705401002000 "0.k3j9x0q1zab"
          1705401002001).sessionId = some (.str "session_1705401002000_k3j9x0q1z")
      ∧ exampleUndatedStorage.getItem storageKey = some (.json exampleUndatedDoc)
      ∧ toNumber exampleLib (exampleUndatedDoc.get "timestamp") = none
      ∧ (construct exampleLib examplePage exampleUndatedStorage 1705401002000 "0.k3j9x0q1zab"
          1705401002001).sessionId = some (.str "session_1705401002000_k3j9x0q1z")
      ∧ (construct exampleLib examplePage exampleUndatedStorage 1705401002000 "0.k3j9x0q1zab"
          1705401002001).messages = [] :=
  ⟨rfl,
    (loadSession_ignores_unreadable_entry exampleLib examplePage exampleTruncatedStorage
      1705401002000 "0.k3j9x0q1zab" 1705401002001 (.notJson "\x7b\"sessionId\":\"session_17")
      rfl (Or.inl ⟨_, rfl⟩)).1,
    rfl, rfl,
    (loadSession_ignores_unreadable_entry exampleLib examplePage exampleUndatedStorage
      1705401002000 "0.k3j9x0q1zab" 1705401002001 (.json exampleUndatedDoc)
      rfl (Or.inr ⟨_, rfl, rfl⟩)).1,
    (loadSession_ignores_unreadable_entry exampleLib examplePage exampleUndatedStorage
      1705401002000 "0.k3j9x0q1zab" 1705401002001 (.json exampleUndatedDoc)
      rfl (Or.inr ⟨_, rfl, rfl⟩)).2.1⟩

/-- C8 as stated fails: a fresh entry without a `messages` array makes `loadSession` adopt the
stored session id before the missing array throws, and a fresh entry without `sessionId` makes
it adopt the stored messages and leave the session id `undefined`. -/
theorem partial_entry_adopted_counterexample :
    (construct exampleLib examplePage
        { items := [("medicalChatSession", .json (.obj
            [ ("sessionId", .str "session_1705314000000_k3j9x0q1z"),
              ("timestamp", .num 1705314602001) ]))],
          full := false }
        1705314700000 "0.z9y8x7w6v5u" 1705314700001).sessionId
        = some (.str "session_1705314000000_k3j9x0q1z")
      ∧ generateSessionId 1705314700000 "0.z9y8x7w6v5u" = "session_1705314700000_z9y8x7w6v"
      ∧ (construct exampleLib examplePage
          { items := [("medicalChatSession", .json (.obj
              [ ("messages", .arr
                  [ .obj [ ("id", .num 1705314600000), ("content", .str "I have a headache"),
                           ("sender", .str "user"),
                           ("timestamp", .str "2024-01-15T10:30:00.000Z") ] ]),
                ("timestamp", .num 1705314602001) ]))],
            full := false }
          1705314700000 "0.z9y8x7w6v5u" 1705314700001).sessionId = none
      ∧ (construct exampleLib examplePage
          { items := [("medicalChatSession", .json (.obj
              [ ("messages", .arr
                  [ .obj [ ("id", .num 1705314600000), ("content", .str "I have a headache"),
                           ("sender", .str "user"),
                           ("timestamp", .str "2024-01-15T10:30:00.000Z") ] ]),
                ("timestamp", .num 1705314602001) ]))],
            full := false }
          1705314700000 "0.z9y8x7w6v5u" 1705314700001).messages =
        [ { props := [("id", some (.num 1705314600000)),
                      ("content", some (.str "I have a headache")),
                      ("sender", some (.str "user"))]
            timestamp := some 1705314600000 } ] :=
  ⟨rfl, by decide, rfl, rfl⟩

/-- C6 as amended: a confirmed `clearChat` leaves the message list empty, the session id equal
to the string `generateSessionId` builds from the current clock reading and random text, and no
entry under the storage key.  The new id differs from the previous one whenever the previous one
is not that very string, in particular whenever the previous one was generated at another clock
reading (both below `1e21` in size, where numbers print as plain digits). -/
theorem clearChat_resets_session (now : Int) (rnd : String) (w : World) :
    (clearChat true now rnd w).messages = []
      ∧ (clearChat true now rnd w).sessionId = some (.str (generateSessionId now rnd))
      ∧ (clearChat true now rnd w).storage.getItem storageKey = none
      ∧ (w.sessionId ≠ some (.str (generateSessionId now rnd)) →
          (clearChat true now rnd w).sessionId ≠ w.sessionId)
      ∧ (∀ (prevNow : Int) (prevRnd : String),
          w.sessionId = some (.str (generateSessionId prevNow prevRnd)) →
          prevNow ≠ now → prevNow.natAbs < 10 ^ 21 → now.natAbs < 10 ^ 21 →
          (clearChat true now rnd w).sessionId ≠ w.sessionId) := by
  have hid : (clearChat true now rnd w).sessionId = some (.str (generateSessionId now rnd)) := by
    simp [clearChat, updateMessageCount]
  refine ⟨by simp [clearChat, updateMessageCount], hid, ?_, ?_, ?_⟩
  · simp only [clearChat, updateMessageCount, if_true]
    exact getItem_removeItem _ _
  · intro h e
    exact h (e ▸ hid)
  · intro prevNow prevRnd hprev hne h1 h2 e
    rw [hid, hprev] at e
    have e1 : generateSessionId now rnd = generateSessionId prevNow prevRnd := by
      injection e with e; injection e
    have hb : (10 : Nat) ^ 21 < 10 ^ 32 := by decide
    exact hne (generateSessionId_now_injective now prevNow rnd prevRnd
      (lt_trans h2 hb) (lt_trans h1 hb) e1).symm

/-- C6 as amended, at a chat whose id was generated at 1705314000000, cleared at
1705314722000. -/
theorem clearChat_resets_session_witness :
    (exampleWorld "").sessionId = some (.str (generateSessionId 1705314000000 "0.k3j9x0q1zab"))
      ∧ (1705314000000 : Int) ≠ 1705314722000
      ∧ (clearChat true 1705314722000 "0.k3j9x0q1zab" (exampleWorld "")).sessionId
          ≠ (exampleWorld "").sessionId
      ∧ (clearChat true 1705314722000 "0.k3j9x0q1zab" (exampleWorld "")).sessionId
          = some (.str "session_1705314722000_k3j9x0q1z") :=
  ⟨rfl, by decide,
    (clearChat_resets_session 1705314722000 "0.k3j9x0q1zab" (exampleWorld "")).2.2.2.2
      1705314000000 "0.k3j9x0q1zab" rfl (by decide) (by decide) (by decide),
    (clearChat_resets_session 1705314722000 "0.k3j9x0q1zab" (exampleWorld "")).2.1⟩

/-- C6 as stated fails: when the clock reading and the random text are those the current id was
built from, a confirmed `clearChat` leaves the session id as it was. -/
theorem clearChat_same_id_counterexample :
    (exampleWorld "").sessionId = some (.str "session_1705314000000_k3j9x0q1z")
      ∧ (clearChat true 1705314000000 "0.k3j9x0q1zab" (exampleWorld "")).sessionId
        = (exampleWorld "").sessionId :=
  ⟨rfl, rfl⟩

theorem lookup_append_entry (l : List (String × Json)) (k k1 : String) (v : Json)
    (h : k ≠ k1) : (l ++ [(k1, v)]).lookup k = l.lookup k := by
  induction l with
  | nil =>
    have hb : (k == k1) = false := by simpa using h
    simp only [List.nil_append, List.lookup_cons, hb]
  | cons p ps ih =>
    obtain ⟨k2, v2⟩ := p
    rw [List.cons_append, List.lookup_cons, List.lookup_cons, ih]

/-- Reading a property of the stored form of a message gives the property of the message. -/
theorem messageToJson_get (lib : JsLib) (m : Message) (hwf : m.WellFormed) (k : String)
    (hk : k ≠ "timestamp") : (messageToJson lib m).get k = m.get k := by
  show List.lookup k (m.props.flatMap (fun p => optProp p.1 p.2)
      ++ [("timestamp", dateToJson lib m.timestamp)]) = (List.lookup k m.props).join
  rw [lookup_append_entry _ _ _ _ hk, lookup_flatMap_optProp _ _ hwf.1]

/-- The stored form of a message holds its time stamp as an ISO string, or `null`. -/
theorem messageToJson_get_timestamp (lib : JsLib) (m : Message) (hwf : m.WellFormed) :
    (messageToJson lib m).get "timestamp" =
      some (match m.timestamp with
            | some ts => .str (lib.toISOString ts)
            | none => .null) := by
  show List.lookup "timestamp" (m.props.flatMap (fun p => optProp p.1 p.2)
      ++ [("timestamp", dateToJson lib m.timestamp)]) = _
  rw [lookup_append_of_none _ _ _ (lookup_flatMap_optProp_none m.props "timestamp" hwf.2)]
  cases m.timestamp <;> rfl

/-- C10 as amended: with a store that accepts writes and a content the page can render,
`addMessage` returns, and the entry under the storage key is then, whatever was stored before,
the text of `sessionId, messages, timestamp`: its `sessionId` is the in-memory session id, its
`messages` are the stored forms of the messages held before followed by the object written for
the message just appended (its id, its content unless `undefined`, its sender and the ISO string
of its time stamp), and its `timestamp` is the clock reading of `saveSession`.  The stored form
of a message that is a proper object reads back property by property as the message, with the
time stamp as its ISO string, or `null` for an Invalid Date. -/
theorem addMessage_persists_session (lib : JsLib) (t : Ticks) (content : JsValue)
    (sender : String) (w : World) (hstore : w.storage.full = false)
    (hrender : toStringThrows content = false) :
    ∃ (after : World) (doc : Json),
      addMessage lib t content sender w = .ok after
      ∧ after.storage.getItem storageKey = some (.json doc)
      ∧ after.sessionId = w.sessionId
      ∧ doc.get "sessionId" = after.sessionId
      ∧ after.messages = w.messages ++
          [ { props := [("id", some (.num t.id)), ("content", content),
                        ("sender", some (.str sender))]
              timestamp := some t.stamp } ]
      ∧ doc.get "messages" = some (.arr (w.messages.map (messageToJson lib) ++
          [ .obj ([("id", .num t.id)]
              ++ (match content with
                  | some c => [("content", c)]
                  | none => [])
              ++ [("sender", .str sender), ("timestamp", .str (lib.toISOString t.stamp))]) ]))
      ∧ doc.get "timestamp" = some (.num t.save)
      ∧ (∀ m ∈ w.messages, m.WellFormed →
          (∀ k, k ≠ "timestamp" → (messageToJson lib m).get k = m.get k)
          ∧ (messageToJson lib m).get "timestamp" =
              some (match m.timestamp with
                    | some ts => .str (lib.toISOString ts)
                    | none => .null)) := by
  refine ⟨addMessageOk lib t content sender w,
    sessionDataToJson lib
      (updateMessageCount
        { w with
          messages := w.messages ++
            [ { props := [("id", some (.num t.id)), ("content", content),
                          ("sender", some (.str sender))]
                timestamp := some t.stamp } ]
          dom := { w.dom with
            welcomeShown := false
            rendered := w.dom.rendered ++
              [ { props := [("id", some (.num t.id)), ("content", content),
                            ("sender", some (.str sender))]
                  timestamp := some t.stamp } ] } }) t.save,
    addMessage_of_renders lib t content sender w hrender, ?_, ?_, ?_, ?_, ?_, ?_, ?_⟩
  · exact saveSession_storage lib t.save _ (by simpa [updateMessageCount] using hstore)
  · simp
  · rw [sessionData_get_sessionId]; simp [updateMessageCount]
  · simp
  · rw [sessionData_get_messages]
    cases content <;> simp [updateMessageCount, messageToJson, optProp, dateToJson]
  · rw [sessionData_get_timestamp]
  · intro m _ hwf
    exact ⟨fun k hk => messageToJson_get lib m hwf k hk, messageToJson_get_timestamp lib m hwf⟩

/-- C10 as amended, at the assistant message of a chat that holds the user message. -/
theorem addMessage_persists_session_witness :
    exampleAsked.storage.full = false
      ∧ toStringThrows (some (.str "Please describe the duration.")) = false
      ∧ ∃ (after : World) (doc : Json),
        addMessage exampleLib exampleTicks2 (some (.str "Please describe the duration."))
          "assistant" exampleAsked = .ok after
        ∧ after.storage.getItem storageKey = some (.json doc)
        ∧ doc.get "sessionId" = some (.str "session_1705314000000_k3j9x0q1z")
        ∧ doc.get "messages" = some (.arr
            [ .obj [ ("id", .num 1705314600000), ("content", .str "I have a headache"),
                     ("sender", .str "user"), ("timestamp", .str "2024-01-15T10:30:00.000Z") ],
              .obj [ ("id", .num 1705314602000),
                     ("content", .str "Please describe the duration."),
                     ("sender", .str "assistant"),
                     ("timestamp", .str "2024-01-15T10:30:02.000Z") ] ]) := by
  refine ⟨rfl, rfl, ?_⟩
  obtain ⟨after, doc, h1, h2, h3, h4, -, h6, -⟩ :=
    addMessage_persists_session exampleLib exampleTicks2
      (some (.str "Please describe the duration.")) "assistant" exampleAsked rfl rfl
  exact ⟨after, doc, h1, h2, h4.trans h3, h6⟩

/-- C10 as stated fails: for a content that is an object with an own `toString`, `addMessage`
pushes the message, `renderMessage` throws, and `saveSession` is never reached: the store, which
accepts writes, still holds the entry written for the first message, and the count on the page
is not updated. -/
theorem addMessage_unsaved_counterexample :
    exampleAsked.storage.full = false
      ∧ addMessage exampleLib exampleTicks2 (some (.obj [("toString", .num 1)])) "assistant"
          exampleAsked
        = .error (addMessageThrown exampleTicks2 (some (.obj [("toString", .num 1)]))
            "assistant" exampleAsked)
      ∧ (addMessageThrown exampleTicks2 (some (.obj [("toString", .num 1)])) "assistant"
          exampleAsked).messages.length = 2
      ∧ (addMessageThrown exampleTicks2 (some (.obj [("toString", .num 1)])) "assistant"
          exampleAsked).storage.getItem storageKey
        = some (.json (.obj
            [ ("sessionId", .str "session_1705314000000_k3j9x0q1z"),
              ("messages", .arr
                [ .obj [ ("id", .num 1705314600000), ("content", .str "I have a headache"),
                         ("sender", .str "user"),
                         ("timestamp", .str "2024-01-15T10:30:00.000Z") ] ]),
              ("timestamp", .num 1705314600001) ])) :=
  ⟨rfl, rfl, rfl, rfl⟩

/-- C4 as amended: let the store accept the write and let every message be a proper object
whose time stamp is a valid date, one that `Date.parse` reads back from its ISO string.  Then
`saveSession` at clock reading `t0`, followed by the constructor (and so `loadSession`) on a new
page at clock reading `t1` with `t1 - t0` below 24 hours, yields the saved session id and a
message list of the same length whose messages have, in order, the same `id`, `content`,
`sender` and time stamp as the saved ones; the restored objects are the saved ones without their
`undefined` properties. -/
theorem save_then_load_round_trip (lib : JsLib) (w : World) (page : Dom) (nowId : Int)
    (rnd : String) (t0 t1 : Int)
    (hstore : w.storage.full = false)
    (hwf : ∀ m ∈ w.messages, m.WellFormed)
    (hdate : ∀ m ∈ w.messages,
      ∃ t, m.timestamp = some t ∧ lib.dateParse (lib.toISOString t) = some t)
    (hage : t1 - t0 < 86400000) :
    (construct lib page (saveSession lib t0 w).storage nowId rnd t1).sessionId = w.sessionId
      ∧ (construct lib page (saveSession lib t0 w).storage nowId rnd t1).messages.map
          Message.view = w.messages.map Message.view
      ∧ (construct lib page (saveSession lib t0 w).storage nowId rnd t1).messages.length
          = w.messages.length
      ∧ (construct lib page (saveSession lib t0 w).storage nowId rnd t1).messages
          = w.messages.map
              (fun m => { m with props := m.props.filter (fun p => p.2.isSome) }) := by
  have hentry := saveSession_storage lib t0 w hstore
  have hday : t1 - t0 < oneDay := by
    have : oneDay = 86400000 := by decide
    omega
  obtain ⟨ps, hps⟩ : ∃ ps, sessionDataToJson lib w t0 = .obj ps := ⟨_, rfl⟩
  have hload := loadSession_of_fresh lib t1 t0 ps
    (w.messages.map (fun m =>
      { props := (m.props.flatMap (fun p => optProp p.1 p.2)).map (fun p => (p.1, some p.2))
        timestamp := m.timestamp }))
    (bindEvents (initializeElements
      { sessionId := some (.str (generateSessionId nowId rnd)), messages := [],
        isProcessing := false, dom := page, storage := (saveSession lib t0 w).storage,
        requests := [] }))
    (by rw [← hps]; exact hentry)
    (by rw [← hps, sessionData_get_timestamp]; rfl)
    hday
    (by rw [← hps, sessionData_get_messages]
        exact reviveMessages_messageToJson lib w.messages hwf hdate)
  rw [← hps, sessionData_get_sessionId] at hload
  have hsid : (construct lib page (saveSession lib t0 w).storage nowId rnd t1).sessionId
      = w.sessionId := hload.1
  have hmsgs : (construct lib page (saveSession lib t0 w).storage nowId rnd t1).messages
      = w.messages.map (fun m =>
          { props := (m.props.flatMap (fun p => optProp p.1 p.2)).map
              (fun p => (p.1, some p.2))
            timestamp := m.timestamp }) := hload.2
  refine ⟨hsid, ?_, ?_, ?_⟩
  · rw [hmsgs, List.map_map]
    apply List.map_congr_left
    intro m hm
    simp only [Function.comp, Message.view, revived_get m (hwf m hm)]
  · rw [hmsgs, List.length_map]
  · rw [hmsgs]
    apply List.map_congr_left
    intro m _
    rw [map_some_flatMap_optProp]

/-- C4 as amended, at a chat holding one exchange, saved and restored two minutes later. -/
theorem save_then_load_round_trip_witness :
    exampleChat.storage.full = false
      ∧ (∀ m ∈ exampleChat.messages, m.WellFormed)
      ∧ (∀ m ∈ exampleChat.messages,
          ∃ t, m.timestamp = some t
            ∧ exampleLib.dateParse (exampleLib.toISOString t) = some t)
      ∧ (1705314722000 : Int) - 1705314602001 < 86400000
      ∧ (construct exampleLib examplePage (saveSession exampleLib 1705314602001 exampleChat).storage
          1705314722000 "0.z9y8x7w6v5u" 1705314722000).sessionId = exampleChat.sessionId
      ∧ (construct exampleLib examplePage (saveSession exampleLib 1705314602001 exampleChat).storage
          1705314722000 "0.z9y8x7w6v5u" 1705314722000).messages = exampleChat.messages := by
  have hwf : ∀ m ∈ exampleChat.messages, m.WellFormed := by
    intro m hm
    have hlist : exampleChat.messages =
        [ { props := [("id", some (.num 1705314600000)),
                      ("content", some (.str "I have a headache")),
                      ("sender", some (.str "user"))]
            timestamp := some 1705314600000 },
          { props := [("id", some (.num 1705314602000)),
                      ("content", some (.str "Please describe the duration.")),
                      ("sender", some (.str "assistant"))]
            timestamp := some 1705314602000 } ] := rfl
    rw [hlist] at hm
    simp only [List.mem_cons, List.mem_singleton, List.not_mem_nil, or_false] at hm
    rcases hm with rfl | rfl <;> exact ⟨by decide, by decide⟩
  have hdate : ∀ m ∈ exampleChat.messages,
      ∃ t, m.timestamp = some t
        ∧ exampleLib.dateParse (exampleLib.toISOString t) = some t := by
    intro m hm
    have hlist : exampleChat.messages =
        [ { props := [("id", some (.num 1705314600000)),
                      ("content", some (.str "I have a headache")),
                      ("sender", some (.str "user"))]
            timestamp := some 1705314600000 },
          { props := [("id", some (.num 1705314602000)),
                      ("content", some (.str "Please describe the duration.")),
                      ("sender", some (.str "assistant"))]
            timestamp := some 1705314602000 } ] := rfl
    rw [hlist] at hm
    simp only [List.mem_cons, List.mem_singleton, List.not_mem_nil, or_false] at hm
    rcases hm with rfl | rfl
    · exact ⟨1705314600000, rfl, rfl⟩
    · exact ⟨1705314602000, rfl, rfl⟩
  have h := save_then_load_round_trip exampleLib exampleChat examplePage 1705314722000
    "0.z9y8x7w6v5u" 1705314602001 1705314722000 rfl hwf hdate (by decide)
  exact ⟨rfl, hwf, hdate, by decide, h.1, h.2.2.2⟩

/-- C4 as stated fails in two ways.  A message list can hold an Invalid Date: `loadSession` puts
one there when a stored message has a time stamp that `Date.parse` rejects.  `saveSession`
writes it as `null`, and the next `loadSession` reads `new Date(null)`, the epoch: the time
stamp has changed.  And when the store refuses the write, `saveSession` stores nothing and the
next session is a fresh one. -/
theorem round_trip_invalid_date_counterexample :
    exampleGarbledChat.messages.map Message.view =
        [ (some (.num 1705314600000), some (.str "I have a headache"), some (.str "user"),
            none) ]
      ∧ exampleGarbledChat.storage.full = false
      ∧ (1705314720000 : Int) - 1705314710000 < 86400000
      ∧ (construct exampleLib examplePage
          (saveSession exampleLib 1705314710000 exampleGarbledChat).storage
          1705314720000 "0.z9y8x7w6v5u" 1705314720000).messages.map Message.view =
        [ (some (.num 1705314600000), some (.str "I have a headache"), some (.str "user"),
            some 0) ]
      ∧ exampleChat.messages.length = 2
      ∧ (construct exampleLib examplePage
          (saveSession exampleLib 1705314710000
            { exampleChat with storage := { items := [], full := true } }).storage
          1705314720000 "0.z9y8x7w6v5u" 1705314720000).messages = []
      ∧ (construct exampleLib examplePage
          (saveSession exampleLib 1705314710000
            { exampleChat with storage := { items := [], full := true } }).storage
          1705314720000 "0.z9y8x7w6v5u" 1705314720000).sessionId
        = some (.str "session_1705314720000_z9y8x7w6v") :=
  ⟨rfl, rfl, by decide, rfl, rfl, rfl, rfl⟩

end MedicalChat
